import Mathlib

/-!
# Scorecard custom checks for OpenStack operator bundles

A shallow embedding of `main.go`: the three bundle checks
(`RelatedImagesCheck`, `AnnotationsCheck`, `InstallModesCheck`), the fallback
`printValidTests`, `wrapResult` and `main` with its dispatch, followed by the
properties proved about them.

Go strings are embedded as Lean `String`s, Go slices as `List`s, and a Go
`map[string]string` as an association list read through `mapIndex`, which
returns the empty string for an absent key exactly as a Go map index does.
The `for ... range` loops, which mutate the local result `r`, are embedded as
a left fold of the loop body over the slice. `strings.HasPrefix` compares
bytes; on well-formed UTF-8 text that is the comparison of characters made by
`HasPrefix` here.

The types and constants of the operator-framework API that `main.go` imports
(`TestResult`, `TestStatus`, the states, the bundle records, the install-mode
types) are declared outside the repository and are modelled in the first
section. The two library functions that `main` calls, the bundle loader and
the JSON encoder, are parameters of `main`. The section on the JSON encoder
models `json.MarshalIndent` at a status, as `json.Marshal` followed by
`json.Indent`, for the statement about the text on standard output.
-/

namespace Scorecard

/-! ## Data model -/

/-- Modelled from the spec: the type `scapiv1alpha3.State` of the scorecard
API, which is declared outside this repository as a string type. -/
abbrev State := String

/-- Modelled from the spec: the constant `scapiv1alpha3.PassState`. -/
def PassState : State := "pass"

/-- Modelled from the spec: the constant `scapiv1alpha3.FailState`. -/
def FailState : State := "fail"

/-- Modelled from the spec: the constant `scapiv1alpha3.ErrorState`. -/
def ErrorState : State := "error"

/-- Modelled from the spec: the record `scapiv1alpha3.TestResult` (the spec's
CheckResult). Its Go zero value has every field empty. -/
structure TestResult where
  Name : String := ""
  Log : String := ""
  State : State := ""
  Errors : List String := []
  Suggestions : List String := []
  deriving DecidableEq, Repr

/-- Modelled from the spec: the record `scapiv1alpha3.TestStatus` (the spec's
CheckStatus), a sequence of results. -/
structure TestStatus where
  Results : List TestResult := []
  deriving DecidableEq, Repr

/-- Modelled from the spec: one entry of the related-images list of a
cluster-service-version, a name and an image reference. -/
structure RelatedImage where
  Name : String
  Image : String
  deriving DecidableEq, Repr

/-- Modelled from the spec: the type `csvv1alpha1.InstallModeType`, declared
outside this repository as a string type. -/
abbrev InstallModeType := String

/-- Modelled from the spec: the constant `csvv1alpha1.InstallModeTypeOwnNamespace`. -/
def InstallModeTypeOwnNamespace : InstallModeType := "OwnNamespace"

/-- Modelled from the spec: the constant `csvv1alpha1.InstallModeTypeSingleNamespace`. -/
def InstallModeTypeSingleNamespace : InstallModeType := "SingleNamespace"

/-- Modelled from the spec: the constant `csvv1alpha1.InstallModeTypeMultiNamespace`. -/
def InstallModeTypeMultiNamespace : InstallModeType := "MultiNamespace"

/-- Modelled from the spec: the constant `csvv1alpha1.InstallModeTypeAllNamespaces`. -/
def InstallModeTypeAllNamespaces : InstallModeType := "AllNamespaces"

/-- Modelled from the spec: one entry of the install-modes list, the mode type
(the Go field `Type`) and its `Supported` flag. -/
structure InstallMode where
  Type_ : InstallModeType
  Supported : Bool
  deriving DecidableEq, Repr

/-- Modelled from the spec: the part of the cluster-service-version `Spec`
that the checks read. -/
structure ClusterServiceVersionSpec where
  RelatedImages : List RelatedImage := []
  InstallModes : List InstallMode := []
  deriving DecidableEq, Repr

/-- Modelled from the spec: the cluster-service-version record, with its name,
its annotation mapping and its spec. -/
structure ClusterServiceVersion where
  Name : String := ""
  Annotations : List (String × String) := []
  Spec : ClusterServiceVersionSpec := {}
  deriving DecidableEq, Repr

/-- Modelled from the spec: the record `apimanifests.Bundle`, of which the
checks read the `CSV` field only. -/
structure Bundle where
  CSV : ClusterServiceVersion := {}
  deriving DecidableEq, Repr

/-- Index of a Go `map[string]string`: the value stored under the key, or the
empty string when the key is absent. -/
def mapIndex (m : List (String × String)) (k : String) : String :=
  (m.lookup k).getD ""

/-- Method `GetAnnotations` of the cluster-service-version object. -/
def ClusterServiceVersion.GetAnnotations (csv : ClusterServiceVersion) :
    List (String × String) :=
  csv.Annotations

/-- Go `strings.HasPrefix`: the string `s` begins with `pre`. -/
def HasPrefix (s pre : String) : Bool :=
  pre.data.isPrefixOf s.data

/-! ## Constants of `main.go` -/

def CustomRelatedImagesCheck : String := "related-images-check"

def CustomAnnotationsCheck : String := "annotations-check"

def CustomInstallModesCheck : String := "install-modes-check"

/-! ## Operations of `main.go` -/

/-- Function `wrapResult`: a status holding the one result. -/
def wrapResult (r : TestResult) : TestStatus :=
  { Results := [r] }

/-- Function `printValidTests`: the fallback result naming the valid tests. -/
def printValidTests : TestStatus :=
  let result : TestResult := {}
  let result := { result with State := FailState }
  let result := { result with Errors := [] }
  let result := { result with Suggestions := [] }
  let str := "Valid tests for this image include: " ++ CustomRelatedImagesCheck ++ " "
    ++ CustomAnnotationsCheck ++ " " ++ CustomInstallModesCheck
  let result := { result with Errors := result.Errors ++ [str] }
  { Results := [result] }

/-- Body of the loop of `RelatedImagesCheck`, run on one related image. -/
def relatedImagesBody (r : TestResult) (image : RelatedImage) : TestResult :=
  if image.Name = "kube-rbac-proxy" then
    if image.Image ≠ "gcr.io/kubebuilder/kube-rbac-proxy@sha256:d4883d7c622683b3319b5e6b3a7edfbf2594c18060131a8bf64504805f875522" then
      { r with
        State := FailState
        Errors := r.Errors ++ ["kube-rbac-proxy does not match a SHA256 form of gcr.io/kubebuilder/kube-rbac-proxy:v0.13.1"] }
    else r
  else r

/-- Function `RelatedImagesCheck`. -/
def RelatedImagesCheck (bundle : Bundle) : TestStatus :=
  let r : TestResult := {}
  let r := { r with Name := CustomRelatedImagesCheck }
  let r := { r with State := PassState }
  let r := { r with Errors := [] }
  let r := { r with Suggestions := [] }
  let relatedImages := bundle.CSV.Spec.RelatedImages
  let r := relatedImages.foldl relatedImagesBody r
  wrapResult r

/-- Function `AnnotationsCheck`. -/
def AnnotationsCheck (bundle : Bundle) : TestStatus :=
  let r : TestResult := {}
  let r := { r with Name := CustomAnnotationsCheck }
  let r := { r with State := PassState }
  let r := { r with Errors := [] }
  let r := { r with Suggestions := [] }
  let annotations := bundle.CSV.GetAnnotations
  let r :=
    if mapIndex annotations "operators.openshift.io/infrastructure-features" ≠ "[\"disconnected\"]" then
      { r with
        State := FailState
        Errors := r.Errors ++ ["Missing annotation for disconnected/offline operator installation support"] }
    else r
  let r :=
    if mapIndex annotations "operators.operatorframework.io/operator-type" ≠ "non-standalone" then
      { r with
        State := FailState
        Errors := r.Errors ++ ["Missing annotation for operator type: non-standalone"] }
    else r
  let r :=
    if (!HasPrefix bundle.CSV.Name "openstack-operator"
        && mapIndex annotations "operatorframework.io/suggested-namespace" == "") = true then
      { r with
        State := FailState
        Errors := r.Errors ++ ["Missing annotation for operator type: non-standalone"] }
    else r
  wrapResult r

/-- Body of the loop of `InstallModesCheck`, run on one install mode: the four
tests follow one another, none is an `else` of the one before. -/
def installModesBody (r : TestResult) (mode : InstallMode) : TestResult :=
  let r :=
    if mode.Type_ = InstallModeTypeOwnNamespace then
      if (!mode.Supported) = true then
        { r with
          State := FailState
          Errors := r.Errors ++ ["installMode type OwnNamespace should be true"] }
      else r
    else r
  let r :=
    if mode.Type_ = InstallModeTypeSingleNamespace then
      if (!mode.Supported) = true then
        { r with
          State := FailState
          Errors := r.Errors ++ ["installMode type SingleNamespace should be true"] }
      else r
    else r
  let r :=
    if mode.Type_ = InstallModeTypeMultiNamespace then
      if mode.Supported = true then
        { r with
          State := FailState
          Errors := r.Errors ++ ["installMode type MultiNamespace should be false"] }
      else r
    else r
  let r :=
    if mode.Type_ = InstallModeTypeAllNamespaces then
      if (!mode.Supported) = true then
        { r with
          State := FailState
          Errors := r.Errors ++ ["installMode type AllNamespaces should be true"] }
      else r
    else r
  r

/-- Function `InstallModesCheck`. -/
def InstallModesCheck (bundle : Bundle) : TestStatus :=
  let r : TestResult := {}
  let r := { r with Name := CustomInstallModesCheck }
  let r := { r with State := PassState }
  let r := { r with Errors := [] }
  let r := { r with Suggestions := [] }
  let r := bundle.CSV.Spec.InstallModes.foldl installModesBody r
  wrapResult r

/-- The `switch` statement of `main` on the first argument: the check whose
name the argument is, the fallback for any other argument. -/
def dispatch (entry : String) (cfg : Bundle) : TestStatus :=
  if entry = CustomRelatedImagesCheck then RelatedImagesCheck cfg
  else if entry = CustomAnnotationsCheck then AnnotationsCheck cfg
  else if entry = CustomInstallModesCheck then InstallModesCheck cfg
  else printValidTests

def PodBundleRoot : String := "/bundle"

/-- How a run of the program ends: a runtime panic, a call of `log.Fatal`
(the message is logged and the process exits at once), or the return from
`main` after the text was written to standard output. -/
inductive Outcome where
  | panicked
  | fatal (logged : String)
  | exited (stdout : String)
  deriving DecidableEq, Repr

/-- Exit status of the process: 2 after a panic, 1 after `log.Fatal`, 0 after
the return from `main`. -/
def Outcome.exitCode : Outcome → Nat
  | Outcome.panicked => 2
  | Outcome.fatal _ => 1
  | Outcome.exited _ => 0

/-- What the process wrote to standard output. -/
def Outcome.written : Outcome → String
  | Outcome.panicked => ""
  | Outcome.fatal _ => ""
  | Outcome.exited stdout => stdout

/-- Function `main`. The two library functions it calls are parameters:
`MarshalIndent` is `json.MarshalIndent` at a status, a line prefix and an
indent, and `GetBundleFromDir` is the bundle loader at a directory; each
returns its value or the text of its error. `Args` is `os.Args`, program name
first; slicing an empty `os.Args` from index 1 panics. -/
def main (MarshalIndent : TestStatus → String → String → Except String String)
    (GetBundleFromDir : String → Except String Bundle) (Args : List String) : Outcome :=
  match Args with
  | [] => Outcome.panicked
  | _ :: entrypoint =>
    match entrypoint with
    | [] => Outcome.fatal "Test name argument is required"
    | first :: _ =>
      match GetBundleFromDir PodBundleRoot with
      | Except.error err => Outcome.fatal err
      | Except.ok cfg =>
        let result := dispatch first cfg
        match MarshalIndent result "" "    " with
        | Except.error err => Outcome.fatal ("Failed to generate json" ++ err)
        | Except.ok prettyJSON => Outcome.exited (prettyJSON ++ "\n")

/-! ## Specification-side vocabulary -/

/-- A related image that violates the pinning rule: it is named
`kube-rbac-proxy` and its image reference is not the pinned digest. -/
def proxyMismatch (image : RelatedImage) : Bool :=
  image.Name == "kube-rbac-proxy" &&
    image.Image != "gcr.io/kubebuilder/kube-rbac-proxy@sha256:d4883d7c622683b3319b5e6b3a7edfbf2594c18060131a8bf64504805f875522"

/-- The error that the related-images rule asks for on one entry, if any. -/
def relatedImageError (image : RelatedImage) : Option String :=
  if proxyMismatch image = true then
    some "kube-rbac-proxy does not match a SHA256 form of gcr.io/kubebuilder/kube-rbac-proxy:v0.13.1"
  else none

/-- A result downgraded by one violation: the state becomes Fail and the
message is appended to the errors. -/
def TestResult.addError (r : TestResult) : Option String → TestResult
  | none => r
  | some e => { r with State := FailState, Errors := r.Errors ++ [e] }

/-- The state invariant of a result: Fail exactly when there are errors, Pass
exactly when there are none. -/
def StateMatchesErrors (r : TestResult) : Prop :=
  (r.State = FailState ↔ 0 < r.Errors.length) ∧ (r.State = PassState ↔ r.Errors = [])

/-- A bundle whose related images hold one mismatching `kube-rbac-proxy`
entry next to an unrelated entry. -/
def sampleBundle : Bundle :=
  { CSV :=
    { Name := "keystone-operator.v0.0.1"
      Annotations := [("operators.operatorframework.io/operator-type", "non-standalone")]
      Spec :=
      { RelatedImages := [⟨"manager", "quay.io/openstack-k8s-operators/keystone-operator:latest"⟩,
          ⟨"kube-rbac-proxy", "gcr.io/kubebuilder/kube-rbac-proxy:v0.13.1"⟩]
        InstallModes := [⟨"OwnNamespace", true⟩, ⟨"MultiNamespace", true⟩] } } }

/-- The expected-support table of the install-modes check: the required
`supported` value of each known mode type, none for any other type. -/
def requiredSupported (t : InstallModeType) : Option Bool :=
  if t = "OwnNamespace" then some true
  else if t = "SingleNamespace" then some true
  else if t = "MultiNamespace" then some false
  else if t = "AllNamespaces" then some true
  else none

/-- How a required value is written in an error message. -/
def boolText : Bool → String
  | true => "true"
  | false => "false"

/-- The error that the expected-support table asks for on one install mode,
if any: the mode type has a required value and the flag differs from it. -/
def installModeError (mode : InstallMode) : Option String :=
  match requiredSupported mode.Type_ with
  | some v =>
    if mode.Supported = v then none
    else some ("installMode type " ++ mode.Type_ ++ " should be " ++ boolText v)
  | none => none

/-- Rule 1 of the annotations check: the infrastructure-features annotation is
present and equals the literal `["disconnected"]`. -/
def infrastructureFeaturesRule (bundle : Bundle) : Bool :=
  bundle.CSV.Annotations.lookup "operators.openshift.io/infrastructure-features"
    == some "[\"disconnected\"]"

/-- Rule 2 of the annotations check: the operator-type annotation is present
and equals `non-standalone`. -/
def operatorTypeRule (bundle : Bundle) : Bool :=
  bundle.CSV.Annotations.lookup "operators.operatorframework.io/operator-type"
    == some "non-standalone"

/-- Rule 3 of the annotations check: the name starts with `openstack-operator`
or the suggested-namespace annotation is present and non-empty. -/
def suggestedNamespaceRule (bundle : Bundle) : Bool :=
  HasPrefix bundle.CSV.Name "openstack-operator" ||
    match bundle.CSV.Annotations.lookup "operatorframework.io/suggested-namespace" with
    | some v => v != ""
    | none => false

/-- The errors of a rule: none when it holds, its message when it is violated. -/
def ruleErrors (holds : Bool) (message : String) : List String :=
  if holds = true then [] else [message]

/-- The number of violated rules among three. -/
def violatedCount (r1 r2 r3 : Bool) : Nat :=
  (if r1 = true then 0 else 1) + (if r2 = true then 0 else 1) + (if r3 = true then 0 else 1)

/-- The bundle with its related-images list replaced. -/
def Bundle.withRelatedImages (bundle : Bundle) (images : List RelatedImage) : Bundle :=
  { bundle with CSV := { bundle.CSV with Spec := { bundle.CSV.Spec with RelatedImages := images } } }

/-- The bundle with its install-modes list replaced. -/
def Bundle.withInstallModes (bundle : Bundle) (modes : List InstallMode) : Bundle :=
  { bundle with CSV := { bundle.CSV with Spec := { bundle.CSV.Spec with InstallModes := modes } } }

/-- The errors of a status: those of its results, one result after the other. -/
def statusErrors (status : TestStatus) : List String :=
  (status.Results.map (fun r => r.Errors)).foldr (fun es rest => es ++ rest) []

/-- An install-mode type of the expected-support table. -/
def knownInstallModeType (t : InstallModeType) : Bool :=
  t == InstallModeTypeOwnNamespace || t == InstallModeTypeSingleNamespace ||
    t == InstallModeTypeMultiNamespace || t == InstallModeTypeAllNamespaces

/-- A JSON string literal of the stand-in encoder: the characters between
quotes, a backslash put before a quote and before a backslash. -/
def sampleQuote (s : String) : String :=
  "\"" ++ String.mk (s.data.foldr
    (fun c rest => if c = '"' ∨ c = '\\' then '\\' :: c :: rest else c :: rest) []) ++ "\""

/-- A JSON block of the stand-in encoder: the items one per line, one indent
deeper than the pad, between the opening and the closing bracket. -/
def sampleBlock (opening closing pad indent : String) (items : List String) : String :=
  opening ++ "\n" ++ ",\n".intercalate (items.map (fun item => pad ++ indent ++ item))
    ++ "\n" ++ pad ++ closing

/-- One result as written by the stand-in encoder: name, log, errors and
suggestions are left out when empty. -/
def sampleResult (pad indent : String) (r : TestResult) : String :=
  sampleBlock "\x7b" "\x7d" pad indent
    ((if r.Name = "" then [] else ["\"name\": " ++ sampleQuote r.Name])
      ++ (if r.Log = "" then [] else ["\"log\": " ++ sampleQuote r.Log])
      ++ ["\"state\": " ++ sampleQuote r.State]
      ++ (if r.Errors = [] then []
          else ["\"errors\": " ++ sampleBlock "[" "]" (pad ++ indent) indent
            (r.Errors.map sampleQuote)])
      ++ (if r.Suggestions = [] then []
          else ["\"suggestions\": " ++ sampleBlock "[" "]" (pad ++ indent) indent
            (r.Suggestions.map sampleQuote)]))

/-- A stand-in for the JSON encoder, used to instantiate the statements that
take the encoder as a parameter: it never fails and writes a status as an
indented document. It is not the encoder of the Go library. -/
def sampleMarshalIndent (status : TestStatus) (linePrefix indent : String) :
    Except String String :=
  if status.Results = [] then Except.ok "\x7b\x7d"
  else
    Except.ok (sampleBlock "\x7b" "\x7d" linePrefix indent
      ["\"results\": " ++ sampleBlock "[" "]" (linePrefix ++ indent) indent
        (status.Results.map (sampleResult (linePrefix ++ indent ++ indent) indent))])

/-- A loader that finds `sampleBundle` in every directory. -/
def sampleLoader (_dir : String) : Except String Bundle :=
  Except.ok sampleBundle

/-- A loader that fails in every directory. -/
def failingLoader (_dir : String) : Except String Bundle :=
  Except.error "unable to find a csv in bundle directory"

/-! ## The JSON encoder -/

/-- Modelled from the spec: the pieces of the compact text that `json.Marshal`
of the Go standard library writes: the punctuation, and the literals (quoted
strings and `null`). -/
inductive Token where
  | beginObject
  | endObject
  | beginArray
  | endArray
  | comma
  | colon
  | literal (text : String)
  deriving DecidableEq, Repr

/-- Modelled from the spec: the lower-case hexadecimal digit of a number below
sixteen, as the Go encoder writes it. -/
def hexDigit (n : Nat) : Char :=
  "0123456789abcdef".data.getD n '0'

/-- Modelled from the spec: what the Go encoder writes for one character of a
string. A quote and a backslash get a backslash, newline, carriage return and
tab are written `\n`, `\r`, `\t`, every other control character and `<`, `>`,
`&` are written as `\u00` and two hexadecimal digits, the line and paragraph
separators as `\u2028` and `\u2029`, and any other character stays as it is.
(Newer releases of the library write backspace and form feed as `\b` and `\f`;
no string of this program holds them.) -/
def escapeChar (c : Char) : List Char :=
  if c = '"' then ['\\', '"']
  else if c = '\\' then ['\\', '\\']
  else if c = '\n' then ['\\', 'n']
  else if c = '\r' then ['\\', 'r']
  else if c = '\t' then ['\\', 't']
  else if c.toNat < 32 ∨ c = '<' ∨ c = '>' ∨ c = '&' then
    ['\\', 'u', '0', '0', hexDigit (c.toNat / 16), hexDigit (c.toNat % 16)]
  else if c.toNat = 0x2028 then ['\\', 'u', '2', '0', '2', '8']
  else if c.toNat = 0x2029 then ['\\', 'u', '2', '0', '2', '9']
  else [c]

/-- Modelled from the spec: a string as the Go encoder writes it, the escaped
characters between quotes. The strings here are well-formed text, so the
replacement that the encoder makes for an invalid byte does not arise. -/
def quoteString (s : String) : String :=
  String.mk ('"' :: (s.data.map escapeChar).foldr (fun cs rest => cs ++ rest) ['"'])

/-- Modelled from the spec: the elements of an array or the members of an
object after the first one, each with a comma before it. -/
def commaBefore : List (List Token) → List Token
  | [] => []
  | x :: rest => Token.comma :: x ++ commaBefore rest

/-- Modelled from the spec: the elements of an array or the members of an
object, a comma between two that follow each other. -/
def commaSeparated : List (List Token) → List Token
  | [] => []
  | x :: rest => x ++ commaBefore rest

/-- Modelled from the spec: a member of an object, the quoted key, a colon and
the value. -/
def member (key : String) (value : List Token) : List Token :=
  Token.literal (quoteString key) :: Token.colon :: value

/-- Modelled from the spec: `json.Marshal` at a non-empty slice of strings. -/
def marshalStrings (xs : List String) : List Token :=
  Token.beginArray :: commaSeparated (xs.map (fun x => [Token.literal (quoteString x)]))
    ++ [Token.endArray]

/-- Modelled from the spec: `json.Marshal` at a `TestResult` of the scorecard
API, whose fields are tagged `name,omitempty`, `log,omitempty`, `state`,
`errors,omitempty`, `suggestions,omitempty` and `creationTimestamp,omitempty`.
An empty string and an empty slice are left out under `omitempty`. The last
field is a time, which `main.go` never sets and the record of this
development does not carry: a time is never left out, and the unset time is
written `null`. -/
def marshalResult (r : TestResult) : List Token :=
  Token.beginObject ::
    commaSeparated
      ((if r.Name = "" then [] else [member "name" [Token.literal (quoteString r.Name)]])
        ++ (if r.Log = "" then [] else [member "log" [Token.literal (quoteString r.Log)]])
        ++ [member "state" [Token.literal (quoteString r.State)]]
        ++ (if r.Errors = [] then [] else [member "errors" (marshalStrings r.Errors)])
        ++ (if r.Suggestions = [] then []
            else [member "suggestions" (marshalStrings r.Suggestions)])
        ++ [member "creationTimestamp" [Token.literal "null"]])
    ++ [Token.endObject]

/-- Modelled from the spec: `json.Marshal` at a `TestStatus` of the scorecard
API, whose one field is tagged `results,omitempty`. -/
def marshalStatus (status : TestStatus) : List Token :=
  Token.beginObject ::
    commaSeparated
      (if status.Results = [] then []
        else [member "results"
          (Token.beginArray :: commaSeparated (status.Results.map marshalResult)
            ++ [Token.endArray])])
    ++ [Token.endObject]

/-- State of the loop of `json.Indent`: the text written so far, whether an
indent is pending after an opening bracket, and the nesting depth. -/
structure IndentState where
  dst : String
  needIndent : Bool
  depth : Nat
  deriving DecidableEq, Repr

/-- Modelled from the spec: `appendNewline` of the Go encoder: a newline, the
line prefix and one indent per level of depth. -/
def appendNewline (dst linePrefix indent : String) (depth : Nat) : String :=
  dst ++ "\n" ++ linePrefix ++ String.join (List.replicate depth indent)

/-- Modelled from the spec: one round of the loop of `json.Indent`, on one
piece of the compact text. A pending indent is written before anything but a
closing bracket; an opening bracket delays its indent, so that an empty object
or array stays on one line; a comma is followed by a new line, a colon by a
space, and a closing bracket comes on a new line one level up. -/
def indentStep (linePrefix indent : String) (s : IndentState) (t : Token) : IndentState :=
  let s :=
    if s.needIndent = true ∧ t ≠ Token.endObject ∧ t ≠ Token.endArray then
      { dst := appendNewline s.dst linePrefix indent (s.depth + 1), needIndent := false,
        depth := s.depth + 1 }
    else s
  match t with
  | Token.beginObject => { s with needIndent := true, dst := s.dst ++ "\x7b" }
  | Token.beginArray => { s with needIndent := true, dst := s.dst ++ "[" }
  | Token.comma => { s with dst := appendNewline (s.dst ++ ",") linePrefix indent s.depth }
  | Token.colon => { s with dst := s.dst ++ ": " }
  | Token.endObject =>
    if s.needIndent = true then { s with needIndent := false, dst := s.dst ++ "\x7d" }
    else
      { s with depth := s.depth - 1,
               dst := appendNewline s.dst linePrefix indent (s.depth - 1) ++ "\x7d" }
  | Token.endArray =>
    if s.needIndent = true then { s with needIndent := false, dst := s.dst ++ "]" }
    else
      { s with depth := s.depth - 1,
               dst := appendNewline s.dst linePrefix indent (s.depth - 1) ++ "]" }
  | Token.literal text => { s with dst := s.dst ++ text }

/-- Modelled from the spec: `json.MarshalIndent` of the Go standard library at
a `TestStatus`: the compact text of `json.Marshal`, laid out by `json.Indent`.
No error can arise on a record of strings and slices of strings. -/
def jsonMarshalIndent (status : TestStatus) (linePrefix indent : String) :
    Except String String :=
  Except.ok
    ((marshalStatus status).foldl (indentStep linePrefix indent)
      { dst := "", needIndent := false, depth := 0 }).dst

/-- A string that the encoder writes as it is between the quotes: none of its
characters is escaped. -/
def plainText (s : String) : Bool :=
  s.data.all (fun c => escapeChar c == [c])

/-- The indentation of a line at a nesting level: four spaces per level. -/
def pad (level : Nat) : String :=
  String.mk (List.replicate (4 * level) ' ')

/-- The text of lines given with their nesting levels: each line indented by
four spaces per level, a newline between two lines and none at the end. -/
def layout : List (Nat × String) → String
  | [] => ""
  | [(level, text)] => pad level ++ text
  | (level, text) :: rest => pad level ++ text ++ "\n" ++ layout rest

/-- The lines of a JSON array of strings at nesting level 4, one string per
line between quotes, a comma after each but the last. -/
def errorLines : List String → List (Nat × String)
  | [] => []
  | [e] => [(4, "\"" ++ e ++ "\"")]
  | e :: rest => (4, "\"" ++ e ++ "\",") :: errorLines rest

/-- The lines of the JSON document of a status with the one result `r`, with
their nesting levels: the status object at level 0, its `results` member at
level 1, the result object at level 2, its members at level 3 (the name when
it is not empty, the state, the errors when there are some, the creation
timestamp) and the error strings at level 4. -/
def documentLines (r : TestResult) : List (Nat × String) :=
  [(0, "\x7b"), (1, "\"results\": ["), (2, "\x7b")]
    ++ (if r.Name = "" then [] else [(3, "\"name\": \"" ++ r.Name ++ "\",")])
    ++ [(3, "\"state\": \"" ++ r.State ++ "\",")]
    ++ (if r.Errors = [] then []
        else [(3, "\"errors\": [")] ++ errorLines r.Errors ++ [(3, "],")])
    ++ [(3, "\"creationTimestamp\": null"), (2, "\x7d"), (1, "]"), (0, "\x7d")]

/-! ## Lemmas on the loops -/

theorem foldl_addError {α : Type} (f : TestResult → α → TestResult) (g : α → Option String)
    (hf : ∀ r x, f r x = r.addError (g x)) (xs : List α) (r : TestResult) :
    xs.foldl f r =
      { r with
        State := if xs.filterMap g = [] then r.State else FailState
        Errors := r.Errors ++ xs.filterMap g } := by
  induction xs generalizing r with
  | nil => simp
  | cons x xs ih =>
    rw [List.foldl_cons, ih, hf]
    cases hg : g x with
    | none => simp [TestResult.addError, List.filterMap_cons, hg]
    | some e => simp [TestResult.addError, List.filterMap_cons, hg]

theorem relatedImagesBody_eq (r : TestResult) (image : RelatedImage) :
    relatedImagesBody r image = r.addError (relatedImageError image) := by
  unfold relatedImagesBody relatedImageError proxyMismatch
  by_cases h1 : image.Name = "kube-rbac-proxy" <;>
    by_cases h2 : image.Image = "gcr.io/kubebuilder/kube-rbac-proxy@sha256:d4883d7c622683b3319b5e6b3a7edfbf2594c18060131a8bf64504805f875522" <;>
    simp [h1, h2, TestResult.addError]

theorem relatedImages_filterMap (images : List RelatedImage) :
    images.filterMap relatedImageError =
      List.replicate (images.countP proxyMismatch)
        "kube-rbac-proxy does not match a SHA256 form of gcr.io/kubebuilder/kube-rbac-proxy:v0.13.1" := by
  induction images with
  | nil => rfl
  | cons x xs ih =>
    by_cases h : proxyMismatch x = true
    · simp [List.filterMap_cons, relatedImageError, h, ih, List.countP_cons, List.replicate_succ]
    · simp [List.filterMap_cons, relatedImageError, h, ih, List.countP_cons]

theorem RelatedImagesCheck_eq (bundle : Bundle) :
    RelatedImagesCheck bundle =
      { Results :=
        [{ Name := "related-images-check"
           Log := ""
           State := if bundle.CSV.Spec.RelatedImages.filterMap relatedImageError = [] then PassState
             else FailState
           Errors := bundle.CSV.Spec.RelatedImages.filterMap relatedImageError
           Suggestions := [] }] } := by
  unfold RelatedImagesCheck
  simp only [foldl_addError relatedImagesBody relatedImageError relatedImagesBody_eq]
  simp [wrapResult, CustomRelatedImagesCheck]

theorem installModesBody_eq (r : TestResult) (mode : InstallMode) :
    installModesBody r mode = r.addError (installModeError mode) := by
  rcases mode with ⟨t, s⟩
  unfold installModesBody installModeError requiredSupported
  simp only [InstallModeTypeOwnNamespace, InstallModeTypeSingleNamespace,
    InstallModeTypeMultiNamespace, InstallModeTypeAllNamespaces]
  by_cases h1 : t = "OwnNamespace"
  · subst h1; cases s <;> simp [TestResult.addError, boolText]
  by_cases h2 : t = "SingleNamespace"
  · subst h2; cases s <;> simp [TestResult.addError, boolText]
  by_cases h3 : t = "MultiNamespace"
  · subst h3; cases s <;> simp [TestResult.addError, boolText]
  by_cases h4 : t = "AllNamespaces"
  · subst h4; cases s <;> simp [TestResult.addError, boolText]
  simp [h1, h2, h3, h4, TestResult.addError]

theorem InstallModesCheck_eq (bundle : Bundle) :
    InstallModesCheck bundle =
      { Results :=
        [{ Name := "install-modes-check"
           Log := ""
           State := if bundle.CSV.Spec.InstallModes.filterMap installModeError = [] then PassState
             else FailState
           Errors := bundle.CSV.Spec.InstallModes.filterMap installModeError
           Suggestions := [] }] } := by
  unfold InstallModesCheck
  simp only [foldl_addError installModesBody installModeError installModesBody_eq]
  simp [wrapResult, CustomInstallModesCheck]

theorem mapIndex_eq_iff (m : List (String × String)) (k v : String) (hv : v ≠ "") :
    mapIndex m k = v ↔ m.lookup k = some v := by
  unfold mapIndex
  cases h : m.lookup k with
  | none => simp [Ne.symm hv]
  | some w => simp

theorem AnnotationsCheck_eq (bundle : Bundle) :
    AnnotationsCheck bundle =
      { Results :=
        [{ Name := "annotations-check"
           Log := ""
           State :=
             if (infrastructureFeaturesRule bundle && operatorTypeRule bundle
                 && suggestedNamespaceRule bundle) = true then PassState
             else FailState
           Errors :=
             ruleErrors (infrastructureFeaturesRule bundle)
                 "Missing annotation for disconnected/offline operator installation support"
               ++ ruleErrors (operatorTypeRule bundle)
                 "Missing annotation for operator type: non-standalone"
               ++ ruleErrors (suggestedNamespaceRule bundle)
                 "Missing annotation for operator type: non-standalone"
           Suggestions := [] }] } := by
  have e1 : infrastructureFeaturesRule bundle = decide (mapIndex bundle.CSV.Annotations
      "operators.openshift.io/infrastructure-features" = "[\"disconnected\"]") := by
    unfold infrastructureFeaturesRule
    rw [Bool.eq_iff_iff]
    simp [mapIndex_eq_iff]
  have e2 : operatorTypeRule bundle = decide (mapIndex bundle.CSV.Annotations
      "operators.operatorframework.io/operator-type" = "non-standalone") := by
    unfold operatorTypeRule
    rw [Bool.eq_iff_iff]
    simp [mapIndex_eq_iff]
  have e3 : suggestedNamespaceRule bundle = (HasPrefix bundle.CSV.Name "openstack-operator"
      || mapIndex bundle.CSV.Annotations "operatorframework.io/suggested-namespace" != "") := by
    unfold suggestedNamespaceRule mapIndex
    cases bundle.CSV.Annotations.lookup "operatorframework.io/suggested-namespace" <;> simp
  rw [e1, e2, e3]
  unfold AnnotationsCheck ClusterServiceVersion.GetAnnotations
  by_cases h1 : mapIndex bundle.CSV.Annotations
      "operators.openshift.io/infrastructure-features" = "[\"disconnected\"]" <;>
    by_cases h2 : mapIndex bundle.CSV.Annotations
      "operators.operatorframework.io/operator-type" = "non-standalone" <;>
    by_cases h3 : HasPrefix bundle.CSV.Name "openstack-operator" = true <;>
    by_cases h4 : mapIndex bundle.CSV.Annotations "operatorframework.io/suggested-namespace" = "" <;>
    simp [h1, h2, h3, h4, wrapResult, ruleErrors, CustomAnnotationsCheck]

theorem stateMatchesErrors_filterMap (n l : String) (es sg : List String) :
    StateMatchesErrors
      { Name := n, Log := l, State := if es = [] then PassState else FailState,
        Errors := es, Suggestions := sg } := by
  cases es with
  | nil => simp [StateMatchesErrors, PassState, FailState]
  | cons e es => simp [StateMatchesErrors, PassState, FailState]

theorem printValidTests_eq :
    printValidTests =
      { Results :=
        [{ Name := ""
           Log := ""
           State := FailState
           Errors := ["Valid tests for this image include: related-images-check annotations-check install-modes-check"]
           Suggestions := [] }] } := by
  decide

/-! ## The state invariant -/

/-- C1: every result produced by `RelatedImagesCheck`, `AnnotationsCheck`,
`InstallModesCheck` or `printValidTests` has state Fail if and only if its
errors list is non-empty, and state Pass if and only if its errors list is
empty. -/
theorem produced_state_fail_iff_errors (bundle : Bundle) (r : TestResult)
    (h : r ∈ (RelatedImagesCheck bundle).Results ∨ r ∈ (AnnotationsCheck bundle).Results ∨
      r ∈ (InstallModesCheck bundle).Results ∨ r ∈ printValidTests.Results) :
    (r.State = FailState ↔ 0 < r.Errors.length) ∧ (r.State = PassState ↔ r.Errors = []) := by
  rcases h with h | h | h | h
  · rw [RelatedImagesCheck_eq, List.mem_singleton] at h
    subst h
    exact stateMatchesErrors_filterMap _ _ _ _
  · rw [AnnotationsCheck_eq, List.mem_singleton] at h
    subst h
    cases infrastructureFeaturesRule bundle <;> cases operatorTypeRule bundle <;>
      cases suggestedNamespaceRule bundle <;> simp [ruleErrors, PassState, FailState]
  · rw [InstallModesCheck_eq, List.mem_singleton] at h
    subst h
    exact stateMatchesErrors_filterMap _ _ _ _
  · rw [printValidTests_eq, List.mem_singleton] at h
    subst h
    simp [PassState, FailState]

/-- Witness of C1: the result of the related-images check on `sampleBundle`,
which holds one mismatching entry, is Fail with one error. -/
theorem produced_state_fail_iff_errors_witness :
    (RelatedImagesCheck sampleBundle).Results =
        [{ Name := "related-images-check", State := "fail",
           Errors := ["kube-rbac-proxy does not match a SHA256 form of gcr.io/kubebuilder/kube-rbac-proxy:v0.13.1"] }] ∧
      (("fail" : String) = FailState ↔ 0 < [("kube-rbac-proxy does not match a SHA256 form of gcr.io/kubebuilder/kube-rbac-proxy:v0.13.1" : String)].length) ∧
      (("fail" : String) = PassState ↔ [("kube-rbac-proxy does not match a SHA256 form of gcr.io/kubebuilder/kube-rbac-proxy:v0.13.1" : String)] = []) :=
  ⟨by decide,
    produced_state_fail_iff_errors sampleBundle
      { Name := "related-images-check", State := "fail",
        Errors := ["kube-rbac-proxy does not match a SHA256 form of gcr.io/kubebuilder/kube-rbac-proxy:v0.13.1"] }
      (Or.inl (by decide))⟩

/-! ## The related-images check -/

/-- C2: when no related image is named `kube-rbac-proxy` (the empty list
included), `RelatedImagesCheck` returns one result, with state Pass and an
empty errors list. -/
theorem relatedImages_pass_without_proxy (bundle : Bundle)
    (h : ∀ image ∈ bundle.CSV.Spec.RelatedImages, image.Name ≠ "kube-rbac-proxy") :
    (RelatedImagesCheck bundle).Results.map (fun r => (r.State, r.Errors)) = [(PassState, [])] := by
  have hnone : bundle.CSV.Spec.RelatedImages.filterMap relatedImageError = [] := by
    rw [List.filterMap_eq_nil_iff]
    intro image himage
    simp [relatedImageError, proxyMismatch, h image himage]
  simp [RelatedImagesCheck_eq, hnone]

/-- Witness of C2: a bundle with one related image, named `manager`. -/
theorem relatedImages_pass_without_proxy_witness :
    (∀ image ∈ [(⟨"manager", "quay.io/example/manager:latest"⟩ : RelatedImage)],
        image.Name ≠ "kube-rbac-proxy") ∧
      (RelatedImagesCheck
          { CSV := { Spec := { RelatedImages := [⟨"manager", "quay.io/example/manager:latest"⟩] } } }
        ).Results.map (fun r => (r.State, r.Errors)) = [(PassState, [])] :=
  ⟨by decide,
    relatedImages_pass_without_proxy
      { CSV := { Spec := { RelatedImages := [⟨"manager", "quay.io/example/manager:latest"⟩] } } }
      (by decide)⟩

/-- C3, as stated, fails: a list holding two `kube-rbac-proxy` entries whose
images both differ from the pinned digest contains such an entry, and
`RelatedImagesCheck` returns two errors, not one. -/
theorem relatedImages_two_mismatches_two_errors :
    ¬ ∀ bundle : Bundle,
      (∃ image ∈ bundle.CSV.Spec.RelatedImages, image.Name = "kube-rbac-proxy" ∧
        image.Image ≠ "gcr.io/kubebuilder/kube-rbac-proxy@sha256:d4883d7c622683b3319b5e6b3a7edfbf2594c18060131a8bf64504805f875522") →
      (RelatedImagesCheck bundle).Results.map (fun r => (r.State, r.Errors.length)) =
        [(FailState, 1)] := by
  intro hall
  have h := hall
    { CSV := { Spec := { RelatedImages :=
      [⟨"kube-rbac-proxy", "gcr.io/kubebuilder/kube-rbac-proxy:v0.13.1"⟩,
        ⟨"kube-rbac-proxy", "gcr.io/kubebuilder/kube-rbac-proxy:v0.13.0"⟩] } } }
    ⟨⟨"kube-rbac-proxy", "gcr.io/kubebuilder/kube-rbac-proxy:v0.13.1"⟩, by decide, by decide,
      by decide⟩
  revert h
  decide

/-- C3, amended: when the related images contain a `kube-rbac-proxy` entry
whose image differs from the pinned digest, `RelatedImagesCheck` returns state
Fail with one error per such entry, hence at least one; when the list holds
exactly one such entry the errors are exactly the one fixed message, whatever
the other entries are. -/
theorem relatedImages_fail_with_mismatch (bundle : Bundle)
    (h : ∃ image ∈ bundle.CSV.Spec.RelatedImages, image.Name = "kube-rbac-proxy" ∧
      image.Image ≠ "gcr.io/kubebuilder/kube-rbac-proxy@sha256:d4883d7c622683b3319b5e6b3a7edfbf2594c18060131a8bf64504805f875522") :
    (RelatedImagesCheck bundle).Results.map (fun r => (r.State, r.Errors.length)) =
        [(FailState, bundle.CSV.Spec.RelatedImages.countP proxyMismatch)] ∧
      0 < bundle.CSV.Spec.RelatedImages.countP proxyMismatch ∧
      (bundle.CSV.Spec.RelatedImages.countP proxyMismatch = 1 →
        (RelatedImagesCheck bundle).Results.map (fun r => (r.State, r.Errors)) =
          [(FailState,
            ["kube-rbac-proxy does not match a SHA256 form of gcr.io/kubebuilder/kube-rbac-proxy:v0.13.1"])]) := by
  have hpos : 0 < bundle.CSV.Spec.RelatedImages.countP proxyMismatch := by
    rw [List.countP_pos_iff]
    obtain ⟨image, hmem, hname, himage⟩ := h
    exact ⟨image, hmem, by simp [proxyMismatch, hname, himage]⟩
  have hne : List.replicate (bundle.CSV.Spec.RelatedImages.countP proxyMismatch)
      "kube-rbac-proxy does not match a SHA256 form of gcr.io/kubebuilder/kube-rbac-proxy:v0.13.1" ≠ [] := by
    intro hnil
    have hlen := congrArg List.length hnil
    rw [List.length_replicate, List.length_nil] at hlen
    omega
  refine ⟨?_, hpos, ?_⟩
  · simp [RelatedImagesCheck_eq, relatedImages_filterMap, hne]
  · intro hone
    rw [hone] at hne
    simp [RelatedImagesCheck_eq, relatedImages_filterMap, hone]

/-- Witness of amended C3: `sampleBundle` holds exactly one mismatching
`kube-rbac-proxy` entry next to a `manager` entry. -/
theorem relatedImages_fail_with_mismatch_witness :
    (∃ image ∈ sampleBundle.CSV.Spec.RelatedImages, image.Name = "kube-rbac-proxy" ∧
      image.Image ≠ "gcr.io/kubebuilder/kube-rbac-proxy@sha256:d4883d7c622683b3319b5e6b3a7edfbf2594c18060131a8bf64504805f875522") ∧
      sampleBundle.CSV.Spec.RelatedImages.countP proxyMismatch = 1 ∧
      (RelatedImagesCheck sampleBundle).Results.map (fun r => (r.State, r.Errors)) =
        [(FailState,
          ["kube-rbac-proxy does not match a SHA256 form of gcr.io/kubebuilder/kube-rbac-proxy:v0.13.1"])] :=
  have hex : ∃ image ∈ sampleBundle.CSV.Spec.RelatedImages, image.Name = "kube-rbac-proxy" ∧
      image.Image ≠ "gcr.io/kubebuilder/kube-rbac-proxy@sha256:d4883d7c622683b3319b5e6b3a7edfbf2594c18060131a8bf64504805f875522" :=
    ⟨⟨"kube-rbac-proxy", "gcr.io/kubebuilder/kube-rbac-proxy:v0.13.1"⟩, by decide, by decide,
      by decide⟩
  ⟨hex, by decide, (relatedImages_fail_with_mismatch sampleBundle hex).2.2 (by decide)⟩

/-- C4: the errors of `RelatedImagesCheck` are exactly one copy of the fixed
message per entry named `kube-rbac-proxy` whose image is not the pinned
digest, and nothing else; two bundles whose related images agree on the
entries named `kube-rbac-proxy`, in order, get the same whole result, so that
removing, adding or altering entries with any other name changes nothing. -/
theorem relatedImages_errors_per_mismatch (bundle other : Bundle)
    (h : bundle.CSV.Spec.RelatedImages.filter (fun image => image.Name == "kube-rbac-proxy") =
      other.CSV.Spec.RelatedImages.filter (fun image => image.Name == "kube-rbac-proxy")) :
    (RelatedImagesCheck bundle).Results.map (fun r => r.Errors) =
        [List.replicate (bundle.CSV.Spec.RelatedImages.countP proxyMismatch)
          "kube-rbac-proxy does not match a SHA256 form of gcr.io/kubebuilder/kube-rbac-proxy:v0.13.1"] ∧
      RelatedImagesCheck bundle = RelatedImagesCheck other := by
  have hfilter : ∀ images : List RelatedImage,
      images.filterMap relatedImageError =
        (images.filter (fun image => image.Name == "kube-rbac-proxy")).filterMap
          relatedImageError := by
    intro images
    induction images with
    | nil => rfl
    | cons x xs ih =>
      by_cases hx : x.Name = "kube-rbac-proxy"
      · simp [List.filter_cons, List.filterMap_cons, hx, ih]
      · simp [List.filter_cons, List.filterMap_cons, hx, ih, relatedImageError, proxyMismatch]
  refine ⟨?_, ?_⟩
  · simp [RelatedImagesCheck_eq, relatedImages_filterMap]
  · rw [RelatedImagesCheck_eq, RelatedImagesCheck_eq, hfilter bundle.CSV.Spec.RelatedImages,
      hfilter other.CSV.Spec.RelatedImages, h]

/-- Witness of C4: `sampleBundle` against a bundle with another name, no
annotations and the `manager` entry replaced by two other entries. -/
theorem relatedImages_errors_per_mismatch_witness :
    (RelatedImagesCheck sampleBundle).Results.map (fun r => r.Errors) =
        [["kube-rbac-proxy does not match a SHA256 form of gcr.io/kubebuilder/kube-rbac-proxy:v0.13.1"]] ∧
      RelatedImagesCheck sampleBundle =
        RelatedImagesCheck
          { CSV := { Name := "nova-operator.v0.0.1", Spec := { RelatedImages :=
            [⟨"kube-rbac-proxy", "gcr.io/kubebuilder/kube-rbac-proxy:v0.13.1"⟩,
              ⟨"nova-api", "quay.io/example/nova-api:latest"⟩,
              ⟨"nova-scheduler", "quay.io/example/nova-scheduler:latest"⟩] } } } :=
  relatedImages_errors_per_mismatch sampleBundle
    { CSV := { Name := "nova-operator.v0.0.1", Spec := { RelatedImages :=
      [⟨"kube-rbac-proxy", "gcr.io/kubebuilder/kube-rbac-proxy:v0.13.1"⟩,
        ⟨"nova-api", "quay.io/example/nova-api:latest"⟩,
        ⟨"nova-scheduler", "quay.io/example/nova-scheduler:latest"⟩] } } }
    (by decide)

/-! ## The annotations check -/

/-- C5: `AnnotationsCheck` evaluates its three rules independently: the errors
are the message of rule 1 if it is violated, then that of rule 2 if it is
violated, then that of rule 3 if it is violated; their number is the number of
violated rules, and the state is Pass if and only if the three rules hold
(Fail otherwise). -/
theorem annotations_errors_per_rule (bundle : Bundle) :
    (AnnotationsCheck bundle).Results.map (fun r => r.Errors) =
        [ruleErrors (infrastructureFeaturesRule bundle)
            "Missing annotation for disconnected/offline operator installation support"
          ++ ruleErrors (operatorTypeRule bundle)
            "Missing annotation for operator type: non-standalone"
          ++ ruleErrors (suggestedNamespaceRule bundle)
            "Missing annotation for operator type: non-standalone"] ∧
      (AnnotationsCheck bundle).Results.map (fun r => r.Errors.length) =
        [violatedCount (infrastructureFeaturesRule bundle) (operatorTypeRule bundle)
          (suggestedNamespaceRule bundle)] ∧
      ((AnnotationsCheck bundle).Results.map (fun r => r.State) = [PassState] ↔
        infrastructureFeaturesRule bundle = true ∧ operatorTypeRule bundle = true ∧
          suggestedNamespaceRule bundle = true) ∧
      ((AnnotationsCheck bundle).Results.map (fun r => r.State) = [FailState] ↔
        ¬ (infrastructureFeaturesRule bundle = true ∧ operatorTypeRule bundle = true ∧
          suggestedNamespaceRule bundle = true)) := by
  rw [AnnotationsCheck_eq]
  cases infrastructureFeaturesRule bundle <;> cases operatorTypeRule bundle <;>
    cases suggestedNamespaceRule bundle <;>
    simp [ruleErrors, violatedCount, PassState, FailState]

/-- C6: with an empty annotation map and a name that does not start with
`openstack-operator`, `AnnotationsCheck` returns Fail with exactly three
errors: the infrastructure-features message, the operator-type message and
the message of the namespace rule, in that order. -/
theorem annotations_empty_three_errors (bundle : Bundle)
    (hann : bundle.CSV.Annotations = [])
    (hname : HasPrefix bundle.CSV.Name "openstack-operator" = false) :
    (AnnotationsCheck bundle).Results.map (fun r => (r.State, r.Errors)) =
      [(FailState,
        ["Missing annotation for disconnected/offline operator installation support",
          "Missing annotation for operator type: non-standalone",
          "Missing annotation for operator type: non-standalone"])] := by
  have h1 : infrastructureFeaturesRule bundle = false := by
    simp [infrastructureFeaturesRule, hann]
  have h2 : operatorTypeRule bundle = false := by
    simp [operatorTypeRule, hann]
  have h3 : suggestedNamespaceRule bundle = false := by
    simp [suggestedNamespaceRule, hann, hname]
  simp [AnnotationsCheck_eq, h1, h2, h3, ruleErrors]

/-- Witness of C6: a bundle named `keystone-operator.v0.0.1` without
annotations. -/
theorem annotations_empty_three_errors_witness :
    HasPrefix "keystone-operator.v0.0.1" "openstack-operator" = false ∧
      (AnnotationsCheck { CSV := { Name := "keystone-operator.v0.0.1" } }).Results.map
          (fun r => (r.State, r.Errors)) =
        [(FailState,
          ["Missing annotation for disconnected/offline operator installation support",
            "Missing annotation for operator type: non-standalone",
            "Missing annotation for operator type: non-standalone"])] :=
  ⟨by decide,
    annotations_empty_three_errors { CSV := { Name := "keystone-operator.v0.0.1" } } rfl
      (by decide)⟩

/-- C7: when the name starts with `openstack-operator` and the
infrastructure-features and operator-type annotations have their required
values, `AnnotationsCheck` returns Pass with empty errors, whatever the
suggested-namespace annotation and the other annotations are. -/
theorem annotations_pass_openstack_operator (bundle : Bundle)
    (hname : HasPrefix bundle.CSV.Name "openstack-operator" = true)
    (hinfra : bundle.CSV.Annotations.lookup "operators.openshift.io/infrastructure-features" =
      some "[\"disconnected\"]")
    (htype : bundle.CSV.Annotations.lookup "operators.operatorframework.io/operator-type" =
      some "non-standalone") :
    (AnnotationsCheck bundle).Results.map (fun r => (r.State, r.Errors)) = [(PassState, [])] := by
  have h1 : infrastructureFeaturesRule bundle = true := by
    simp [infrastructureFeaturesRule, hinfra]
  have h2 : operatorTypeRule bundle = true := by
    simp [operatorTypeRule, htype]
  have h3 : suggestedNamespaceRule bundle = true := by
    simp [suggestedNamespaceRule, hname]
  simp [AnnotationsCheck_eq, h1, h2, h3, ruleErrors]

/-- Witness of C7: the name `openstack-operator-foo`, the two required
annotations, an unrelated annotation and no suggested-namespace. -/
theorem annotations_pass_openstack_operator_witness :
    HasPrefix "openstack-operator-foo" "openstack-operator" = true ∧
      (AnnotationsCheck
          { CSV :=
            { Name := "openstack-operator-foo"
              Annotations :=
                [("capabilities", "Seamless Upgrades"),
                  ("operators.operatorframework.io/operator-type", "non-standalone"),
                  ("operators.openshift.io/infrastructure-features", "[\"disconnected\"]")] } }
        ).Results.map (fun r => (r.State, r.Errors)) = [(PassState, [])] :=
  ⟨by decide,
    annotations_pass_openstack_operator
      { CSV :=
        { Name := "openstack-operator-foo"
          Annotations :=
            [("capabilities", "Seamless Upgrades"),
              ("operators.operatorframework.io/operator-type", "non-standalone"),
              ("operators.openshift.io/infrastructure-features", "[\"disconnected\"]")] } }
      (by decide) (by decide) (by decide)⟩

/-! ## The install-modes check -/

/-- C8: `InstallModesCheck` returns Pass with empty errors if and only if
every entry whose type has a required value in the table (OwnNamespace true,
SingleNamespace true, MultiNamespace false, AllNamespaces true) carries that
value; in particular the list OwnNamespace true, SingleNamespace true,
MultiNamespace false, AllNamespaces true yields Pass with empty errors, in any
bundle. -/
theorem installModes_pass_iff_table (bundle : Bundle) :
    ((InstallModesCheck bundle).Results.map (fun r => (r.State, r.Errors)) = [(PassState, [])] ↔
        ∀ mode ∈ bundle.CSV.Spec.InstallModes, ∀ v : Bool,
          requiredSupported mode.Type_ = some v → mode.Supported = v) ∧
      (requiredSupported "OwnNamespace" = some true ∧
        requiredSupported "SingleNamespace" = some true ∧
        requiredSupported "MultiNamespace" = some false ∧
        requiredSupported "AllNamespaces" = some true) ∧
      (InstallModesCheck
          { bundle with CSV := { bundle.CSV with Spec := { bundle.CSV.Spec with
            InstallModes := [⟨"OwnNamespace", true⟩, ⟨"SingleNamespace", true⟩,
              ⟨"MultiNamespace", false⟩, ⟨"AllNamespaces", true⟩] } } }
        ).Results.map (fun r => (r.State, r.Errors)) = [(PassState, [])] := by
  have hnil : bundle.CSV.Spec.InstallModes.filterMap installModeError = [] ↔
      ∀ mode ∈ bundle.CSV.Spec.InstallModes, ∀ v : Bool,
        requiredSupported mode.Type_ = some v → mode.Supported = v := by
    rw [List.filterMap_eq_nil_iff]
    refine forall₂_congr ?_
    intro mode _
    unfold installModeError
    cases requiredSupported mode.Type_ with
    | none => simp
    | some w => by_cases hw : mode.Supported = w <;> simp [hw]
  refine ⟨?_, by decide, ?_⟩
  · rw [← hnil, InstallModesCheck_eq]
    by_cases he : bundle.CSV.Spec.InstallModes.filterMap installModeError = [] <;>
      simp [he, PassState, FailState]
  · rw [InstallModesCheck_eq]
    rfl

/-- C9: the errors of `InstallModesCheck` are, in list order, one message
`installMode type T should be v` per entry of type `T` whose flag differs from
the required value `v` of the table; every error comes from an entry of the
list, so an absent mode type produces none: the empty list yields Pass, and
the list holding only MultiNamespace with supported true yields Fail with the
one error `installMode type MultiNamespace should be false`. -/
theorem installModes_errors_in_order (bundle : Bundle) :
    (InstallModesCheck bundle).Results.map (fun r => r.Errors) =
        [bundle.CSV.Spec.InstallModes.filterMap installModeError] ∧
      (∀ r ∈ (InstallModesCheck bundle).Results, ∀ e ∈ r.Errors,
        ∃ mode ∈ bundle.CSV.Spec.InstallModes, ∃ v : Bool,
          requiredSupported mode.Type_ = some v ∧ mode.Supported ≠ v ∧
            e = "installMode type " ++ mode.Type_ ++ " should be " ++ boolText v) ∧
      (InstallModesCheck
          { bundle with CSV := { bundle.CSV with Spec := { bundle.CSV.Spec with
            InstallModes := [] } } }
        ).Results.map (fun r => (r.State, r.Errors)) = [(PassState, [])] ∧
      (InstallModesCheck
          { bundle with CSV := { bundle.CSV with Spec := { bundle.CSV.Spec with
            InstallModes := [⟨"MultiNamespace", true⟩] } } }
        ).Results.map (fun r => (r.State, r.Errors)) =
          [(FailState, ["installMode type MultiNamespace should be false"])] := by
  refine ⟨by simp [InstallModesCheck_eq], ?_, ?_, ?_⟩
  · intro r hr e he
    rw [InstallModesCheck_eq, List.mem_singleton] at hr
    subst hr
    obtain ⟨mode, hmode, herr⟩ := List.mem_filterMap.mp he
    refine ⟨mode, hmode, ?_⟩
    unfold installModeError at herr
    cases hreq : requiredSupported mode.Type_ with
    | none => simp [hreq] at herr
    | some v =>
      by_cases hv : mode.Supported = v
      · simp [hreq, hv] at herr
      · refine ⟨v, rfl, hv, ?_⟩
        simp only [hreq, hv, if_false] at herr
        exact (Option.some.inj herr).symm
  · rw [InstallModesCheck_eq]
    rfl
  · rw [InstallModesCheck_eq]
    rfl

/-! ## The fallback -/

/-- C10: `printValidTests` is a status with exactly one result, whose state is
Fail, whose name is empty and whose errors list has exactly one entry, the
text `Valid tests for this image include: related-images-check
annotations-check install-modes-check`, which contains each of the three check
names. -/
theorem printValidTests_single_fail :
    printValidTests.Results.length = 1 ∧
      printValidTests.Results.map (fun r => (r.Name, r.State, r.Errors)) =
        [("", FailState,
          ["Valid tests for this image include: related-images-check annotations-check install-modes-check"])] ∧
      (∃ before after : String,
        "Valid tests for this image include: related-images-check annotations-check install-modes-check"
          = before ++ CustomRelatedImagesCheck ++ after) ∧
      (∃ before after : String,
        "Valid tests for this image include: related-images-check annotations-check install-modes-check"
          = before ++ CustomAnnotationsCheck ++ after) ∧
      (∃ before after : String,
        "Valid tests for this image include: related-images-check annotations-check install-modes-check"
          = before ++ CustomInstallModesCheck ++ after) := by
  refine ⟨by decide, by decide, ?_, ?_, ?_⟩
  · exact ⟨"Valid tests for this image include: ", " annotations-check install-modes-check",
      by decide⟩
  · exact ⟨"Valid tests for this image include: related-images-check ", " install-modes-check",
      by decide⟩
  · exact ⟨"Valid tests for this image include: related-images-check annotations-check ", "",
      by decide⟩

/-! ## Dispatch and the run of the program -/

theorem names_RelatedImagesCheck (bundle : Bundle) :
    (RelatedImagesCheck bundle).Results.map (fun r => r.Name) = ["related-images-check"] := by
  simp [RelatedImagesCheck_eq]

theorem names_AnnotationsCheck (bundle : Bundle) :
    (AnnotationsCheck bundle).Results.map (fun r => r.Name) = ["annotations-check"] := by
  simp [AnnotationsCheck_eq]

theorem names_InstallModesCheck (bundle : Bundle) :
    (InstallModesCheck bundle).Results.map (fun r => r.Name) = ["install-modes-check"] := by
  simp [InstallModesCheck_eq]

theorem names_printValidTests :
    printValidTests.Results.map (fun r => r.Name) = [""] := by
  simp [printValidTests_eq]

theorem ne_of_names (s t : TestStatus)
    (h : s.Results.map (fun r => r.Name) ≠ t.Results.map (fun r => r.Name)) : s ≠ t := by
  intro hst
  exact h (by rw [hst])

theorem dispatch_other (a : String) (cfg : Bundle) (h1 : a ≠ "related-images-check")
    (h2 : a ≠ "annotations-check") (h3 : a ≠ "install-modes-check") :
    dispatch a cfg = printValidTests := by
  simp [dispatch, CustomRelatedImagesCheck, CustomAnnotationsCheck, CustomInstallModesCheck,
    h1, h2, h3]

/-- C11: the dispatch returns the result of `RelatedImagesCheck` exactly when
the argument is `related-images-check`, that of `AnnotationsCheck` exactly
when it is `annotations-check`, that of `InstallModesCheck` exactly when it is
`install-modes-check`, and the fallback exactly when it is none of the three;
the status holds exactly one result, and for the three recognised names the
name of that result is the argument. -/
theorem dispatch_selects_by_name (bundle : Bundle) (a : String) :
    (dispatch a bundle = RelatedImagesCheck bundle ↔ a = "related-images-check") ∧
      (dispatch a bundle = AnnotationsCheck bundle ↔ a = "annotations-check") ∧
      (dispatch a bundle = InstallModesCheck bundle ↔ a = "install-modes-check") ∧
      (dispatch a bundle = printValidTests ↔
        a ≠ "related-images-check" ∧ a ≠ "annotations-check" ∧ a ≠ "install-modes-check") ∧
      (dispatch a bundle).Results.length = 1 ∧
      (a = "related-images-check" ∨ a = "annotations-check" ∨ a = "install-modes-check" →
        (dispatch a bundle).Results.map (fun r => r.Name) = [a]) := by
  have hra : RelatedImagesCheck bundle ≠ AnnotationsCheck bundle :=
    ne_of_names _ _ (by rw [names_RelatedImagesCheck, names_AnnotationsCheck]; decide)
  have hri : RelatedImagesCheck bundle ≠ InstallModesCheck bundle :=
    ne_of_names _ _ (by rw [names_RelatedImagesCheck, names_InstallModesCheck]; decide)
  have hrp : RelatedImagesCheck bundle ≠ printValidTests :=
    ne_of_names _ _ (by rw [names_RelatedImagesCheck, names_printValidTests]; decide)
  have hai : AnnotationsCheck bundle ≠ InstallModesCheck bundle :=
    ne_of_names _ _ (by rw [names_AnnotationsCheck, names_InstallModesCheck]; decide)
  have hap : AnnotationsCheck bundle ≠ printValidTests :=
    ne_of_names _ _ (by rw [names_AnnotationsCheck, names_printValidTests]; decide)
  have hip : InstallModesCheck bundle ≠ printValidTests :=
    ne_of_names _ _ (by rw [names_InstallModesCheck, names_printValidTests]; decide)
  by_cases h1 : a = "related-images-check"
  · subst h1
    have hd : dispatch "related-images-check" bundle = RelatedImagesCheck bundle := by
      simp [dispatch, CustomRelatedImagesCheck]
    rw [hd]
    refine ⟨by simp, by simp [hra], by simp [hri], by simp [hrp], ?_, ?_⟩
    · simp [RelatedImagesCheck_eq]
    · intro _; exact names_RelatedImagesCheck bundle
  by_cases h2 : a = "annotations-check"
  · subst h2
    have hd : dispatch "annotations-check" bundle = AnnotationsCheck bundle := by
      simp [dispatch, CustomRelatedImagesCheck, CustomAnnotationsCheck]
    rw [hd]
    refine ⟨by simp [hra.symm], by simp, by simp [hai], by simp [hap], ?_, ?_⟩
    · simp [AnnotationsCheck_eq]
    · intro _; exact names_AnnotationsCheck bundle
  by_cases h3 : a = "install-modes-check"
  · subst h3
    have hd : dispatch "install-modes-check" bundle = InstallModesCheck bundle := by
      simp [dispatch, CustomRelatedImagesCheck, CustomAnnotationsCheck, CustomInstallModesCheck]
    rw [hd]
    refine ⟨by simp [hri.symm], by simp [hai.symm], by simp, by simp [hip], ?_, ?_⟩
    · simp [InstallModesCheck_eq]
    · intro _; exact names_InstallModesCheck bundle
  rw [dispatch_other a bundle h1 h2 h3]
  refine ⟨by simp [h1, hrp.symm], by simp [h2, hap.symm], by simp [h3, hip.symm],
    by simp [h1, h2, h3], ?_, ?_⟩
  · simp [printValidTests_eq]
  · intro h
    rcases h with h | h | h
    · exact absurd h h1
    · exact absurd h h2
    · exact absurd h h3

theorem sampleMarshalIndent_total (status : TestStatus) (linePrefix indent : String) :
    ∃ doc, sampleMarshalIndent status linePrefix indent = Except.ok doc := by
  unfold sampleMarshalIndent
  by_cases h : status.Results = []
  · exact ⟨_, if_pos h⟩
  · exact ⟨_, if_neg h⟩

theorem main_loaded (MarshalIndent : TestStatus → String → String → Except String String)
    (GetBundleFromDir : String → Except String Bundle) (prog first : String) (rest : List String)
    (cfg : Bundle) (doc : String) (hload : GetBundleFromDir PodBundleRoot = Except.ok cfg)
    (hdoc : MarshalIndent (dispatch first cfg) "" "    " = Except.ok doc) :
    main MarshalIndent GetBundleFromDir (prog :: first :: rest) = Outcome.exited (doc ++ "\n") := by
  simp [main, hload, hdoc]

theorem main_load_failed (MarshalIndent : TestStatus → String → String → Except String String)
    (GetBundleFromDir : String → Except String Bundle) (prog first : String) (rest : List String)
    (err : String) (hload : GetBundleFromDir PodBundleRoot = Except.error err) :
    main MarshalIndent GetBundleFromDir (prog :: first :: rest) = Outcome.fatal err := by
  simp [main, hload]

/-- C12, as stated, fails: with the argument `bogus-check` and a bundle that
cannot be loaded the run ends in `log.Fatal`, with exit status 1 and nothing
written, although the encoder renders every status. -/
theorem unknown_check_fatal_when_load_fails :
    ¬ ∀ (MarshalIndent : TestStatus → String → String → Except String String)
        (GetBundleFromDir : String → Except String Bundle) (prog a : String) (rest : List String),
      (∀ status, ∃ doc, MarshalIndent status "" "    " = Except.ok doc) →
      a ≠ "related-images-check" → a ≠ "annotations-check" → a ≠ "install-modes-check" →
      (main MarshalIndent GetBundleFromDir (prog :: a :: rest)).exitCode = 0 ∧
        ∃ doc, MarshalIndent printValidTests "" "    " = Except.ok doc ∧
          (main MarshalIndent GetBundleFromDir (prog :: a :: rest)).written = doc ++ "\n" := by
  intro hall
  have h := (hall sampleMarshalIndent failingLoader "scorecard-test" "bogus-check" []
    (fun status => sampleMarshalIndent_total status "" "    ")
    (by decide) (by decide) (by decide)).1
  rw [main_load_failed sampleMarshalIndent failingLoader "scorecard-test" "bogus-check" []
    "unable to find a csv in bundle directory" rfl] at h
  exact absurd h (by decide)

/-- C12, amended: when the first argument is present but is none of the three
check names and the bundle loads, the program writes the rendering of the
fallback status, whose one result has state Fail and the error listing the
three check names, followed by a newline, and ends with exit status zero. -/
theorem unknown_check_emits_fallback
    (MarshalIndent : TestStatus → String → String → Except String String)
    (GetBundleFromDir : String → Except String Bundle) (prog a : String) (rest : List String)
    (cfg : Bundle) (doc : String)
    (h1 : a ≠ "related-images-check") (h2 : a ≠ "annotations-check")
    (h3 : a ≠ "install-modes-check")
    (hload : GetBundleFromDir PodBundleRoot = Except.ok cfg)
    (hdoc : MarshalIndent printValidTests "" "    " = Except.ok doc) :
    main MarshalIndent GetBundleFromDir (prog :: a :: rest) = Outcome.exited (doc ++ "\n") ∧
      (main MarshalIndent GetBundleFromDir (prog :: a :: rest)).exitCode = 0 ∧
      (main MarshalIndent GetBundleFromDir (prog :: a :: rest)).written = doc ++ "\n" ∧
      printValidTests.Results.map (fun r => (r.State, r.Errors)) =
        [(FailState,
          ["Valid tests for this image include: related-images-check annotations-check install-modes-check"])] := by
  have hmain := main_loaded MarshalIndent GetBundleFromDir prog a rest cfg doc hload
    (by rw [dispatch_other a cfg h1 h2 h3]; exact hdoc)
  refine ⟨hmain, ?_, ?_, ?_⟩
  · rw [hmain]; rfl
  · rw [hmain]; rfl
  · rw [printValidTests_eq]; rfl

set_option maxRecDepth 100000 in
/-- Witness of amended C12: the argument `bogus-check`, a loader that finds
`sampleBundle` and the stand-in encoder. -/
theorem unknown_check_emits_fallback_witness :
    main sampleMarshalIndent sampleLoader ["scorecard-test", "bogus-check"] =
        Outcome.exited ("\x7b\n    \"results\": [\n        \x7b\n            \"state\": \"fail\",\n            \"errors\": [\n                \"Valid tests for this image include: related-images-check annotations-check install-modes-check\"\n            ]\n        \x7d\n    ]\n\x7d" ++ "\n") ∧
      (main sampleMarshalIndent sampleLoader ["scorecard-test", "bogus-check"]).exitCode = 0 :=
  have h := unknown_check_emits_fallback sampleMarshalIndent sampleLoader "scorecard-test"
    "bogus-check" [] sampleBundle
    "\x7b\n    \"results\": [\n        \x7b\n            \"state\": \"fail\",\n            \"errors\": [\n                \"Valid tests for this image include: related-images-check annotations-check install-modes-check\"\n            ]\n        \x7d\n    ]\n\x7d"
    (by decide) (by decide) (by decide) rfl rfl
  ⟨h.1, h.2.1⟩

/-- C13: for an encoder that renders every status, a run with program name
and argument list ends in `log.Fatal` if and only if the argument list is
empty or the bundle load failed, and then the exit status is not zero and
nothing is written; in every other case the rendering of the dispatched
status is written, followed by a newline, and the exit status is zero,
whatever the state of the result. -/
theorem main_fatal_iff_no_argument_or_load_failed
    (MarshalIndent : TestStatus → String → String → Except String String)
    (GetBundleFromDir : String → Except String Bundle) (prog : String)
    (entrypoint : List String)
    (hencode : ∀ status, ∃ doc, MarshalIndent status "" "    " = Except.ok doc) :
    ((∃ logged, main MarshalIndent GetBundleFromDir (prog :: entrypoint) = Outcome.fatal logged) ↔
        (entrypoint = [] ∨ ∃ err, GetBundleFromDir PodBundleRoot = Except.error err)) ∧
      ((entrypoint = [] ∨ ∃ err, GetBundleFromDir PodBundleRoot = Except.error err) →
        (main MarshalIndent GetBundleFromDir (prog :: entrypoint)).exitCode ≠ 0 ∧
          (main MarshalIndent GetBundleFromDir (prog :: entrypoint)).written = "") ∧
      (¬ (entrypoint = [] ∨ ∃ err, GetBundleFromDir PodBundleRoot = Except.error err) →
        (main MarshalIndent GetBundleFromDir (prog :: entrypoint)).exitCode = 0 ∧
          ∃ first rest cfg doc, entrypoint = first :: rest ∧
            GetBundleFromDir PodBundleRoot = Except.ok cfg ∧
            MarshalIndent (dispatch first cfg) "" "    " = Except.ok doc ∧
            main MarshalIndent GetBundleFromDir (prog :: entrypoint) =
              Outcome.exited (doc ++ "\n")) := by
  cases entrypoint with
  | nil => simp [main, Outcome.exitCode, Outcome.written]
  | cons first rest =>
    cases hload : GetBundleFromDir PodBundleRoot with
    | error err =>
      rw [main_load_failed MarshalIndent GetBundleFromDir prog first rest err hload]
      simp [Outcome.exitCode, Outcome.written]
    | ok cfg =>
      obtain ⟨doc, hdoc⟩ := hencode (dispatch first cfg)
      rw [main_loaded MarshalIndent GetBundleFromDir prog first rest cfg doc hload hdoc]
      simp [Outcome.exitCode, hdoc]

/-- Witness of C13: the stand-in encoder renders every status; with it, the
run on `related-images-check` against a failing loader is fatal. -/
theorem main_fatal_iff_no_argument_or_load_failed_witness :
    (∀ status, ∃ doc, sampleMarshalIndent status "" "    " = Except.ok doc) ∧
      ((∃ logged, main sampleMarshalIndent failingLoader
          ["scorecard-test", "related-images-check"] = Outcome.fatal logged) ↔
        ((["related-images-check"] : List String) = [] ∨
          ∃ err, failingLoader PodBundleRoot = Except.error err)) :=
  ⟨fun status => sampleMarshalIndent_total status "" "    ",
    (main_fatal_iff_no_argument_or_load_failed sampleMarshalIndent failingLoader "scorecard-test"
      ["related-images-check"] (fun status => sampleMarshalIndent_total status "" "    ")).1⟩

/-! ## Further properties of the checks -/

/-- C14: when only rule 3 of `AnnotationsCheck` is violated (rules 1 and 2
hold, the name does not start with `openstack-operator`, the
suggested-namespace annotation is absent or empty), the result is Fail with
the single error `Missing annotation for operator type: non-standalone`, the
very errors list of a bundle that violates rule 2 only. -/
theorem namespace_rule_emits_operator_type_message (bundle other : Bundle)
    (h1 : infrastructureFeaturesRule bundle = true) (h2 : operatorTypeRule bundle = true)
    (hname : HasPrefix bundle.CSV.Name "openstack-operator" = false)
    (hns : bundle.CSV.Annotations.lookup "operatorframework.io/suggested-namespace" = none ∨
      bundle.CSV.Annotations.lookup "operatorframework.io/suggested-namespace" = some "")
    (o1 : infrastructureFeaturesRule other = true) (o2 : operatorTypeRule other = false)
    (o3 : suggestedNamespaceRule other = true) :
    (AnnotationsCheck bundle).Results.map (fun r => (r.State, r.Errors)) =
        [(FailState, ["Missing annotation for operator type: non-standalone"])] ∧
      (AnnotationsCheck other).Results.map (fun r => r.Errors) =
        (AnnotationsCheck bundle).Results.map (fun r => r.Errors) := by
  have h3 : suggestedNamespaceRule bundle = false := by
    unfold suggestedNamespaceRule
    rcases hns with hns | hns <;> simp [hname, hns]
  simp [AnnotationsCheck_eq, h1, h2, h3, o1, o2, o3, ruleErrors]

/-- Witness of C14: a bundle named `keystone-operator.v0.0.1` with the two
required annotations and no suggested-namespace, against a bundle named
`openstack-operator.v0.0.1` that lacks the operator-type annotation. -/
theorem namespace_rule_emits_operator_type_message_witness :
    (AnnotationsCheck
        { CSV :=
          { Name := "keystone-operator.v0.0.1"
            Annotations :=
              [("operators.openshift.io/infrastructure-features", "[\"disconnected\"]"),
                ("operators.operatorframework.io/operator-type", "non-standalone")] } }
      ).Results.map (fun r => (r.State, r.Errors)) =
        [(FailState, ["Missing annotation for operator type: non-standalone"])] ∧
      (AnnotationsCheck
          { CSV :=
            { Name := "openstack-operator.v0.0.1"
              Annotations :=
                [("operators.openshift.io/infrastructure-features", "[\"disconnected\"]")] } }
        ).Results.map (fun r => r.Errors) =
        (AnnotationsCheck
          { CSV :=
            { Name := "keystone-operator.v0.0.1"
              Annotations :=
                [("operators.openshift.io/infrastructure-features", "[\"disconnected\"]"),
                  ("operators.operatorframework.io/operator-type", "non-standalone")] } }
        ).Results.map (fun r => r.Errors) :=
  namespace_rule_emits_operator_type_message
    { CSV :=
      { Name := "keystone-operator.v0.0.1"
        Annotations :=
          [("operators.openshift.io/infrastructure-features", "[\"disconnected\"]"),
            ("operators.operatorframework.io/operator-type", "non-standalone")] } }
    { CSV :=
      { Name := "openstack-operator.v0.0.1"
        Annotations :=
          [("operators.openshift.io/infrastructure-features", "[\"disconnected\"]")] } }
    (by decide) (by decide) (by decide) (Or.inl (by decide)) (by decide) (by decide) (by decide)

theorem main_exited_inv
    (MarshalIndent : TestStatus → String → String → Except String String)
    (GetBundleFromDir : String → Except String Bundle) (Args : List String) (out : String)
    (h : main MarshalIndent GetBundleFromDir Args = Outcome.exited out) :
    ∃ prog first rest cfg doc, Args = prog :: first :: rest ∧
      GetBundleFromDir PodBundleRoot = Except.ok cfg ∧
      MarshalIndent (dispatch first cfg) "" (String.mk (List.replicate 4 ' ')) = Except.ok doc ∧
      out = doc ++ "\n" := by
  unfold main at h
  cases Args with
  | nil => simp at h
  | cons prog entrypoint =>
    cases entrypoint with
    | nil => simp at h
    | cons first rest =>
      cases hload : GetBundleFromDir PodBundleRoot with
      | error err => simp [hload] at h
      | ok cfg =>
        cases hdoc : MarshalIndent (dispatch first cfg) "" "    " with
        | error err => simp [hload, hdoc] at h
        | ok doc =>
          simp only [hload, hdoc] at h
          exact ⟨prog, first, rest, cfg, doc, rfl, rfl, hdoc, (Outcome.exited.inj h).symm⟩

/-- C16: the errors of `RelatedImagesCheck` and of `InstallModesCheck` on a
list `xs ++ ys` are the errors on `xs` followed by the errors on `ys`; hence a
check that is Fail on `xs` is Fail on `xs ++ ys`, for every `ys`. -/
theorem check_errors_append (bundle : Bundle) (xs ys : List RelatedImage)
    (ms ns : List InstallMode) :
    statusErrors (RelatedImagesCheck (bundle.withRelatedImages (xs ++ ys))) =
        statusErrors (RelatedImagesCheck (bundle.withRelatedImages xs)) ++
          statusErrors (RelatedImagesCheck (bundle.withRelatedImages ys)) ∧
      statusErrors (InstallModesCheck (bundle.withInstallModes (ms ++ ns))) =
        statusErrors (InstallModesCheck (bundle.withInstallModes ms)) ++
          statusErrors (InstallModesCheck (bundle.withInstallModes ns)) ∧
      ((RelatedImagesCheck (bundle.withRelatedImages xs)).Results.map (fun r => r.State) =
          [FailState] →
        (RelatedImagesCheck (bundle.withRelatedImages (xs ++ ys))).Results.map
          (fun r => r.State) = [FailState]) ∧
      ((InstallModesCheck (bundle.withInstallModes ms)).Results.map (fun r => r.State) =
          [FailState] →
        (InstallModesCheck (bundle.withInstallModes (ms ++ ns))).Results.map
          (fun r => r.State) = [FailState]) := by
  refine ⟨?_, ?_, ?_, ?_⟩
  · simp [RelatedImagesCheck_eq, Bundle.withRelatedImages, statusErrors, List.filterMap_append]
  · simp [InstallModesCheck_eq, Bundle.withInstallModes, statusErrors, List.filterMap_append]
  · simp only [RelatedImagesCheck_eq, Bundle.withRelatedImages, List.filterMap_append,
      List.map_cons, List.map_nil]
    by_cases hx : xs.filterMap relatedImageError = []
    · simp [hx, PassState, FailState]
    · simp [hx]
  · simp only [InstallModesCheck_eq, Bundle.withInstallModes, List.filterMap_append,
      List.map_cons, List.map_nil]
    by_cases hm : ms.filterMap installModeError = []
    · simp [hm, PassState, FailState]
    · simp [hm]

/-- C17: `InstallModesCheck` ignores the entries whose type is none of
OwnNamespace, SingleNamespace, MultiNamespace, AllNamespaces: a list that has
the same entries of these four types, in order, as the list of the bundle
gives the same result, and so does the list with every other entry removed. -/
theorem installModes_ignores_unknown_types (bundle : Bundle) (modes : List InstallMode)
    (h : modes.filter (fun mode => knownInstallModeType mode.Type_) =
      bundle.CSV.Spec.InstallModes.filter (fun mode => knownInstallModeType mode.Type_)) :
    InstallModesCheck (bundle.withInstallModes modes) = InstallModesCheck bundle ∧
      InstallModesCheck (bundle.withInstallModes
          (bundle.CSV.Spec.InstallModes.filter (fun mode => knownInstallModeType mode.Type_))) =
        InstallModesCheck bundle := by
  have hfilter : ∀ ms : List InstallMode,
      ms.filterMap installModeError =
        (ms.filter (fun mode => knownInstallModeType mode.Type_)).filterMap installModeError := by
    intro ms
    induction ms with
    | nil => rfl
    | cons m ms ih =>
      by_cases hk : knownInstallModeType m.Type_ = true
      · simp [List.filter_cons, List.filterMap_cons, hk, ih]
      · have hnone : installModeError m = none := by
          simp only [knownInstallModeType, InstallModeTypeOwnNamespace,
            InstallModeTypeSingleNamespace, InstallModeTypeMultiNamespace,
            InstallModeTypeAllNamespaces, Bool.or_eq_true, beq_iff_eq, not_or] at hk
          simp [installModeError, requiredSupported, hk]
        simp [List.filter_cons, List.filterMap_cons, hk, ih, hnone]
  refine ⟨?_, ?_⟩
  · have he : modes.filterMap installModeError =
        bundle.CSV.Spec.InstallModes.filterMap installModeError := by
      rw [hfilter modes, hfilter bundle.CSV.Spec.InstallModes, h]
    rw [InstallModesCheck_eq, InstallModesCheck_eq]
    simp only [Bundle.withInstallModes, he]
  · have he : (bundle.CSV.Spec.InstallModes.filter
          (fun mode => knownInstallModeType mode.Type_)).filterMap installModeError =
        bundle.CSV.Spec.InstallModes.filterMap installModeError :=
      (hfilter bundle.CSV.Spec.InstallModes).symm
    rw [InstallModesCheck_eq, InstallModesCheck_eq]
    simp only [Bundle.withInstallModes, he]

/-- Witness of C17: the install modes of `sampleBundle` with two entries of
other types added, one supported and one not. -/
theorem installModes_ignores_unknown_types_witness :
    InstallModesCheck (sampleBundle.withInstallModes
        [⟨"Cluster", true⟩, ⟨"OwnNamespace", true⟩, ⟨"ownnamespace", false⟩,
          ⟨"MultiNamespace", true⟩]) =
      InstallModesCheck sampleBundle :=
  (installModes_ignores_unknown_types sampleBundle
    [⟨"Cluster", true⟩, ⟨"OwnNamespace", true⟩, ⟨"ownnamespace", false⟩,
      ⟨"MultiNamespace", true⟩] (by decide)).1

/-- C18: two bundles that have the same name and the same values under the
three annotation keys of the check, an absent key read as the empty string,
get identical results from `AnnotationsCheck`, whatever their other
annotations, related images and install modes are. -/
theorem annotations_depends_on_name_and_three_keys (bundle other : Bundle)
    (hname : bundle.CSV.Name = other.CSV.Name)
    (hinfra : mapIndex bundle.CSV.Annotations "operators.openshift.io/infrastructure-features" =
      mapIndex other.CSV.Annotations "operators.openshift.io/infrastructure-features")
    (htype : mapIndex bundle.CSV.Annotations "operators.operatorframework.io/operator-type" =
      mapIndex other.CSV.Annotations "operators.operatorframework.io/operator-type")
    (hns : mapIndex bundle.CSV.Annotations "operatorframework.io/suggested-namespace" =
      mapIndex other.CSV.Annotations "operatorframework.io/suggested-namespace") :
    AnnotationsCheck bundle = AnnotationsCheck other := by
  simp only [AnnotationsCheck, ClusterServiceVersion.GetAnnotations, hname, hinfra, htype, hns]

/-- Witness of C18: `sampleBundle` against a bundle of the same name whose
annotations come in another order with an empty suggested-namespace and an
extra key, and which has no related images and no install modes. -/
theorem annotations_depends_on_name_and_three_keys_witness :
    AnnotationsCheck sampleBundle =
      AnnotationsCheck
        { CSV :=
          { Name := "keystone-operator.v0.0.1"
            Annotations :=
              [("capabilities", "Seamless Upgrades"),
                ("operatorframework.io/suggested-namespace", ""),
                ("operators.operatorframework.io/operator-type", "non-standalone")] } } :=
  annotations_depends_on_name_and_three_keys sampleBundle
    { CSV :=
      { Name := "keystone-operator.v0.0.1"
        Annotations :=
          [("capabilities", "Seamless Upgrades"),
            ("operatorframework.io/suggested-namespace", ""),
            ("operators.operatorframework.io/operator-type", "non-standalone")] } }
    (by decide) (by decide) (by decide) (by decide)

/-- C19: every result produced by `RelatedImagesCheck`, `AnnotationsCheck`,
`InstallModesCheck` or `printValidTests` has an empty suggestions list. -/
theorem produced_suggestions_empty (bundle : Bundle) (r : TestResult)
    (h : r ∈ (RelatedImagesCheck bundle).Results ∨ r ∈ (AnnotationsCheck bundle).Results ∨
      r ∈ (InstallModesCheck bundle).Results ∨ r ∈ printValidTests.Results) :
    r.Suggestions = [] := by
  rcases h with h | h | h | h
  · rw [RelatedImagesCheck_eq, List.mem_singleton] at h
    rw [h]
  · rw [AnnotationsCheck_eq, List.mem_singleton] at h
    rw [h]
  · rw [InstallModesCheck_eq, List.mem_singleton] at h
    rw [h]
  · rw [printValidTests_eq, List.mem_singleton] at h
    rw [h]

/-- Witness of C19: the result of `AnnotationsCheck` on `sampleBundle`. -/
theorem produced_suggestions_empty_witness :
    (AnnotationsCheck sampleBundle).Results =
        [{ Name := "annotations-check", State := "fail",
           Errors := ["Missing annotation for disconnected/offline operator installation support",
             "Missing annotation for operator type: non-standalone"] }] ∧
      ({ Name := "annotations-check", State := "fail",
         Errors := ["Missing annotation for disconnected/offline operator installation support",
           "Missing annotation for operator type: non-standalone"] } : TestResult).Suggestions
        = [] :=
  ⟨by decide,
    produced_suggestions_empty sampleBundle
      { Name := "annotations-check", State := "fail",
        Errors := ["Missing annotation for disconnected/offline operator installation support",
          "Missing annotation for operator type: non-standalone"] }
      (Or.inr (Or.inl (by decide)))⟩

/-! ## The document written to standard output -/

theorem quoteString_plain (s : String) (h : plainText s = true) :
    quoteString s = "\"" ++ s ++ "\"" := by
  have hfold : ∀ cs : List Char, (cs.all (fun c => escapeChar c == [c])) = true →
      (cs.map escapeChar).foldr (fun x rest => x ++ rest) ['"'] = cs ++ ['"'] := by
    intro cs
    induction cs with
    | nil => intro _; rfl
    | cons c cs ih =>
      intro hc
      simp only [List.all_cons, Bool.and_eq_true, beq_iff_eq] at hc
      simp only [List.map_cons, List.foldr_cons, hc.1, ih hc.2, List.cons_append,
        List.nil_append]
  apply String.ext
  simp only [quoteString, String.data_append, hfold s.data h]
  rfl

theorem layout_cons_cons (a b : Nat × String) (rest : List (Nat × String)) :
    layout (a :: b :: rest) = pad a.1 ++ a.2 ++ "\n" ++ layout (b :: rest) := by
  rfl

theorem layout_append (xs ys : List (Nat × String)) (hx : xs ≠ []) (hy : ys ≠ []) :
    layout (xs ++ ys) = layout xs ++ "\n" ++ layout ys := by
  induction xs with
  | nil => exact absurd rfl hx
  | cons a xs ih =>
    cases xs with
    | nil =>
      cases ys with
      | nil => exact absurd rfl hy
      | cons b ys => rfl
    | cons b xs =>
      rw [List.cons_append, List.cons_append, layout_cons_cons, layout_cons_cons,
        ← List.cons_append, ih (by simp)]
      simp only [String.append_assoc]

theorem layout_cons_of_ne (a : Nat × String) (rest : List (Nat × String)) (h : rest ≠ []) :
    layout (a :: rest) = pad a.1 ++ a.2 ++ "\n" ++ layout rest := by
  cases rest with
  | nil => exact absurd rfl h
  | cons b rest => rfl

theorem errorLines_ne_nil (e : String) (rest : List String) : errorLines (e :: rest) ≠ [] := by
  cases rest <;> simp [errorLines]

theorem indent_commaBefore (rest : List String) :
    ∀ (before e : String), (∀ x ∈ rest, plainText x = true) →
      (commaBefore (rest.map (fun x => [Token.literal (quoteString x)]))).foldl
          (indentStep "" "    ")
          { dst := before ++ pad 4 ++ "\"" ++ e ++ "\"", needIndent := false, depth := 4 } =
        { dst := before ++ layout (errorLines (e :: rest)), needIndent := false, depth := 4 } := by
  induction rest with
  | nil =>
    intro before e _
    simp only [List.map_nil, commaBefore, List.foldl_nil, errorLines, layout,
      String.append_assoc]
  | cons x xs ih =>
    intro before e hplain
    have hx : quoteString x = "\"" ++ x ++ "\"" :=
      quoteString_plain x (hplain x (List.mem_cons_self x xs))
    have hstep : (indentStep "" "    " (indentStep "" "    "
        { dst := before ++ pad 4 ++ "\"" ++ e ++ "\"", needIndent := false, depth := 4 }
        Token.comma) (Token.literal (quoteString x))) =
        { dst := (before ++ pad 4 ++ "\"" ++ e ++ "\",\n") ++ pad 4 ++ "\"" ++ x ++ "\"",
          needIndent := false, depth := 4 } := by
      simp only [indentStep, appendNewline, hx]
      simp
      apply String.ext
      simp only [String.data_append, List.append_assoc]
      rfl
    simp only [List.map_cons, commaBefore, List.cons_append, List.nil_append, List.foldl_cons]
    rw [hstep, ih _ x (fun y hy => hplain y (List.mem_cons_of_mem x hy))]
    have hl : layout (errorLines (e :: x :: xs)) =
        pad 4 ++ ("\"" ++ e ++ "\",") ++ "\n" ++ layout (errorLines (x :: xs)) := by
      have hc : errorLines (e :: x :: xs) = (4, "\"" ++ e ++ "\",") :: errorLines (x :: xs) := rfl
      rw [hc]
      exact layout_cons_of_ne _ _ (errorLines_ne_nil x xs)
    rw [hl]
    congr 1
    apply String.ext
    simp only [String.data_append, List.append_assoc]
    rfl

theorem indent_marshalStrings (es : List String) (hne : es ≠ [])
    (hplain : ∀ x ∈ es, plainText x = true) (before : String) :
    (marshalStrings es).foldl (indentStep "" "    ")
        { dst := before, needIndent := false, depth := 3 } =
      { dst := before ++ "[\n" ++ layout (errorLines es) ++ "\n" ++ pad 3 ++ "]",
        needIndent := false, depth := 3 } := by
  cases es with
  | nil => exact absurd rfl hne
  | cons e rest =>
    have he : quoteString e = "\"" ++ e ++ "\"" :=
      quoteString_plain e (hplain e (List.mem_cons_self e rest))
    have hstep : (indentStep "" "    " (indentStep "" "    "
        { dst := before, needIndent := false, depth := 3 }
        Token.beginArray) (Token.literal (quoteString e))) =
        { dst := (before ++ "[\n") ++ pad 4 ++ "\"" ++ e ++ "\"",
          needIndent := false, depth := 4 } := by
      simp only [indentStep, appendNewline, he]
      simp
      apply String.ext
      simp only [String.data_append, List.append_assoc]
      rfl
    simp only [marshalStrings, List.map_cons, commaSeparated, List.cons_append, List.nil_append,
      List.foldl_cons, List.foldl_append, List.foldl_nil]
    rw [hstep, indent_commaBefore rest _ e (fun y hy => hplain y (List.mem_cons_of_mem e hy))]
    simp only [indentStep, appendNewline]
    simp
    apply String.ext
    simp only [String.data_append, List.append_assoc]
    rfl

theorem layout_errors_block (es : List String) (hne : es ≠ []) (a : Nat × String)
    (b c : Nat × String) (rest : List (Nat × String)) :
    layout (a :: (errorLines es ++ b :: c :: rest)) =
      pad a.1 ++ a.2 ++ "\n" ++ layout (errorLines es) ++ "\n" ++ pad b.1 ++ b.2 ++ "\n"
        ++ layout (c :: rest) := by
  have hl : errorLines es ≠ [] := by
    cases es with
    | nil => exact absurd rfl hne
    | cons e tail => exact errorLines_ne_nil e tail
  rw [layout_cons_of_ne a _ (by simp), layout_append _ _ hl (by simp), layout_cons_cons]
  simp only [String.append_assoc]

set_option maxRecDepth 100000 in
theorem jsonMarshalIndent_single (r : TestResult) (hlog : r.Log = "")
    (hsug : r.Suggestions = []) (hname : plainText r.Name = true)
    (hstate : plainText r.State = true) (herr : ∀ e ∈ r.Errors, plainText e = true) :
    jsonMarshalIndent { Results := [r] } "" "    " = Except.ok (layout (documentLines r)) := by
  have k1 : quoteString "results" = "\"results\"" := by decide
  have k2 : quoteString "name" = "\"name\"" := by decide
  have k3 : quoteString "state" = "\"state\"" := by decide
  have k4 : quoteString "errors" = "\"errors\"" := by decide
  have k5 : quoteString "creationTimestamp" = "\"creationTimestamp\"" := by decide
  have qn := quoteString_plain r.Name hname
  have qs := quoteString_plain r.State hstate
  unfold jsonMarshalIndent
  apply congrArg Except.ok
  by_cases hn : r.Name = "" <;> by_cases he : r.Errors = []
  · simp only [marshalStatus, marshalResult, member, commaSeparated, commaBefore, hlog, hsug,
      hn, he, k1, k3, k5, qs, if_true, if_false, List.map_cons, List.map_nil, List.cons_append,
      List.nil_append, List.append_nil, List.foldl_cons, List.foldl_nil, List.cons_ne_nil,
      documentLines, layout, indentStep, appendNewline]
    simp
    apply String.ext
    simp only [String.data_append, List.append_assoc]
    rfl
  · have hdoc : layout (documentLines r) =
        "\x7b\n    \"results\": [\n        \x7b\n            \"state\": \"" ++ r.State
          ++ "\",\n            \"errors\": [\n" ++ layout (errorLines r.Errors)
          ++ "\n            ],\n            \"creationTimestamp\": null\n        \x7d\n    ]\n\x7d" := by
      simp only [documentLines, hn, he, if_true, if_false, List.cons_append, List.nil_append,
        List.append_assoc]
      rw [layout_cons_cons, layout_cons_cons, layout_cons_cons, layout_cons_cons,
        layout_errors_block r.Errors he]
      simp only [layout]
      apply String.ext
      simp only [String.data_append, List.append_assoc]
      rfl
    rw [hdoc]
    simp only [marshalStatus, marshalResult, member, commaSeparated, commaBefore, hlog, hsug,
      hn, he, k1, k3, k4, k5, qs, if_true, if_false, List.map_cons, List.map_nil,
      List.cons_append, List.nil_append, List.append_nil, List.foldl_cons, List.foldl_nil,
      List.foldl_append, List.cons_ne_nil]
    simp [indentStep, appendNewline, indent_marshalStrings r.Errors he herr]
    apply String.ext
    simp only [String.data_append, List.append_assoc]
    rfl
  · simp only [marshalStatus, marshalResult, member, commaSeparated, commaBefore, hlog, hsug,
      hn, he, k1, k2, k3, k5, qn, qs, if_true, if_false, List.map_cons, List.map_nil,
      List.cons_append, List.nil_append, List.append_nil, List.foldl_cons, List.foldl_nil,
      List.cons_ne_nil, documentLines, layout, indentStep, appendNewline]
    simp
    apply String.ext
    simp only [String.data_append, List.append_assoc]
    rfl
  · have hdoc : layout (documentLines r) =
        "\x7b\n    \"results\": [\n        \x7b\n            \"name\": \"" ++ r.Name
          ++ "\",\n            \"state\": \"" ++ r.State
          ++ "\",\n            \"errors\": [\n" ++ layout (errorLines r.Errors)
          ++ "\n            ],\n            \"creationTimestamp\": null\n        \x7d\n    ]\n\x7d" := by
      simp only [documentLines, hn, he, if_true, if_false, List.cons_append, List.nil_append,
        List.append_assoc]
      rw [layout_cons_cons, layout_cons_cons, layout_cons_cons, layout_cons_cons,
        layout_cons_cons, layout_errors_block r.Errors he]
      simp only [layout]
      apply String.ext
      simp only [String.data_append, List.append_assoc]
      rfl
    rw [hdoc]
    simp only [marshalStatus, marshalResult, member, commaSeparated, commaBefore, hlog, hsug,
      hn, he, k1, k2, k3, k4, k5, qn, qs, if_true, if_false, List.map_cons, List.map_nil,
      List.cons_append, List.nil_append, List.append_nil, List.foldl_cons, List.foldl_nil,
      List.foldl_append, List.cons_ne_nil]
    simp [indentStep, appendNewline, indent_marshalStrings r.Errors he herr]
    apply String.ext
    simp only [String.data_append, List.append_assoc]
    rfl

set_option linter.unnecessarySeqFocus false in
theorem installModeError_plain (mode : InstallMode) (e : String)
    (h : installModeError mode = some e) : plainText e = true := by
  rcases mode with ⟨t, supported⟩
  unfold installModeError requiredSupported at h
  by_cases h1 : t = "OwnNamespace"
  · subst h1; cases supported <;> simp [boolText] at h <;> subst h <;> decide
  by_cases h2 : t = "SingleNamespace"
  · subst h2; cases supported <;> simp [boolText] at h <;> subst h <;> decide
  by_cases h3 : t = "MultiNamespace"
  · subst h3; cases supported <;> simp [boolText] at h <;> subst h <;> decide
  by_cases h4 : t = "AllNamespaces"
  · subst h4; cases supported <;> simp [boolText] at h <;> subst h <;> decide
  simp [h1, h2, h3, h4] at h

theorem relatedImageError_plain (image : RelatedImage) (e : String)
    (h : relatedImageError image = some e) : plainText e = true := by
  unfold relatedImageError at h
  by_cases hm : proxyMismatch image = true
  · simp [hm] at h; subst h; decide
  · simp [hm] at h

theorem dispatch_single_plain (first : String) (cfg : Bundle) :
    ∃ r, dispatch first cfg = { Results := [r] } ∧ r.Log = "" ∧ r.Suggestions = [] ∧
      plainText r.Name = true ∧ plainText r.State = true ∧
      ∀ e ∈ r.Errors, plainText e = true := by
  have hpass : plainText PassState = true := by decide
  have hfail : plainText FailState = true := by decide
  have hn1 : plainText "related-images-check" = true := by decide
  have hn2 : plainText "annotations-check" = true := by decide
  have hn3 : plainText "install-modes-check" = true := by decide
  have hm1 : plainText
      "Missing annotation for disconnected/offline operator installation support" = true := by
    decide
  have hm2 : plainText "Missing annotation for operator type: non-standalone" = true := by
    decide
  unfold dispatch
  by_cases h1 : first = CustomRelatedImagesCheck
  · rw [if_pos h1, RelatedImagesCheck_eq]
    refine ⟨_, rfl, rfl, rfl, hn1, ?_, ?_⟩
    · by_cases he : cfg.CSV.Spec.RelatedImages.filterMap relatedImageError = []
      · simp only [if_pos he]; exact hpass
      · simp only [if_neg he]; exact hfail
    · intro e hmem
      obtain ⟨image, _, himage⟩ := List.mem_filterMap.mp hmem
      exact relatedImageError_plain image e himage
  rw [if_neg h1]
  by_cases h2 : first = CustomAnnotationsCheck
  · rw [if_pos h2, AnnotationsCheck_eq]
    refine ⟨_, rfl, rfl, rfl, hn2, ?_, ?_⟩
    · by_cases hall : (infrastructureFeaturesRule cfg && operatorTypeRule cfg
          && suggestedNamespaceRule cfg) = true
      · simp only [if_pos hall]; exact hpass
      · simp only [if_neg hall]; exact hfail
    · intro e hmem
      simp only [List.mem_append, ruleErrors] at hmem
      rcases hmem with (hmem | hmem) | hmem
      · by_cases hr : infrastructureFeaturesRule cfg = true
        · simp [hr] at hmem
        · simp [hr] at hmem; rw [hmem]; exact hm1
      · by_cases hr : operatorTypeRule cfg = true
        · simp [hr] at hmem
        · simp [hr] at hmem; rw [hmem]; exact hm2
      · by_cases hr : suggestedNamespaceRule cfg = true
        · simp [hr] at hmem
        · simp [hr] at hmem; rw [hmem]; exact hm2
  rw [if_neg h2]
  by_cases h3 : first = CustomInstallModesCheck
  · rw [if_pos h3, InstallModesCheck_eq]
    refine ⟨_, rfl, rfl, rfl, hn3, ?_, ?_⟩
    · by_cases he : cfg.CSV.Spec.InstallModes.filterMap installModeError = []
      · simp only [if_pos he]; exact hpass
      · simp only [if_neg he]; exact hfail
    · intro e hmem
      obtain ⟨mode, _, hmode⟩ := List.mem_filterMap.mp hmem
      exact installModeError_plain mode e hmode
  rw [if_neg h3, printValidTests_eq]
  refine ⟨_, rfl, rfl, rfl, by decide, hfail, ?_⟩
  intro e hmem
  rw [List.mem_singleton] at hmem
  rw [hmem]
  decide

theorem documentLines_last (r : TestResult) :
    ∃ body, layout (documentLines r) = body ++ "\x7d" := by
  have hsplit : documentLines r =
      ([(0, "\x7b"), (1, "\"results\": ["), (2, "\x7b")]
        ++ (if r.Name = "" then [] else [(3, "\"name\": \"" ++ r.Name ++ "\",")])
        ++ [(3, "\"state\": \"" ++ r.State ++ "\",")]
        ++ (if r.Errors = [] then []
            else [(3, "\"errors\": [")] ++ errorLines r.Errors ++ [(3, "],")])
        ++ [(3, "\"creationTimestamp\": null"), (2, "\x7d"), (1, "]")]) ++ [(0, "\x7d")] := by
    simp [documentLines]
  rw [hsplit, layout_append _ _ (by simp) (by simp)]
  exact ⟨_, rfl⟩

/-- C15: with the JSON encoder of the Go library, a successful run writes to
standard output the JSON document of the dispatched status, which holds one
result: the lines of `documentLines`, each indented by four spaces per nesting
level, with the name, the state and the errors between quotes as they are
(none of their characters needs an escape); the document ends with its closing
brace and is followed by exactly one newline. -/
theorem stdout_is_indented_json_document
    (GetBundleFromDir : String → Except String Bundle) (Args : List String) (out : String)
    (h : main jsonMarshalIndent GetBundleFromDir Args = Outcome.exited out) :
    ∃ prog first rest cfg r, Args = prog :: first :: rest ∧
      GetBundleFromDir PodBundleRoot = Except.ok cfg ∧
      dispatch first cfg = { Results := [r] } ∧
      (plainText r.Name = true ∧ plainText r.State = true ∧
        ∀ e ∈ r.Errors, plainText e = true) ∧
      out = layout (documentLines r) ++ "\n" ∧
      ∃ body, out = body ++ "\x7d\n" := by
  obtain ⟨prog, first, rest, cfg, doc, hargs, hload, hdoc, hout⟩ :=
    main_exited_inv jsonMarshalIndent GetBundleFromDir Args out h
  obtain ⟨r, hr, hlog, hsug, hname, hstate, herr⟩ := dispatch_single_plain first cfg
  have hdoc2 : jsonMarshalIndent (dispatch first cfg) "" "    " = Except.ok doc := hdoc
  rw [hr, jsonMarshalIndent_single r hlog hsug hname hstate herr] at hdoc2
  have hlay : layout (documentLines r) = doc := Except.ok.inj hdoc2
  obtain ⟨body, hbody⟩ := documentLines_last r
  refine ⟨prog, first, rest, cfg, r, hargs, hload, hr, ⟨hname, hstate, herr⟩, ?_, body, ?_⟩
  · rw [hout, hlay]
  · rw [hout, ← hlay, hbody, String.append_assoc]
    rfl

set_option maxRecDepth 100000 in
/-- Witness of C15: the run on `install-modes-check` with a loader that finds
`sampleBundle`, whose install modes hold MultiNamespace as supported. -/
theorem stdout_is_indented_json_document_witness :
    main jsonMarshalIndent sampleLoader ["scorecard-test", "install-modes-check"] =
        Outcome.exited "\x7b\n    \"results\": [\n        \x7b\n            \"name\": \"install-modes-check\",\n            \"state\": \"fail\",\n            \"errors\": [\n                \"installMode type MultiNamespace should be false\"\n            ],\n            \"creationTimestamp\": null\n        \x7d\n    ]\n\x7d\n" ∧
      ∃ prog first rest cfg r,
        ["scorecard-test", "install-modes-check"] = prog :: first :: rest ∧
        sampleLoader PodBundleRoot = Except.ok cfg ∧
        dispatch first cfg = { Results := [r] } ∧
        (plainText r.Name = true ∧ plainText r.State = true ∧
          ∀ e ∈ r.Errors, plainText e = true) ∧
        "\x7b\n    \"results\": [\n        \x7b\n            \"name\": \"install-modes-check\",\n            \"state\": \"fail\",\n            \"errors\": [\n                \"installMode type MultiNamespace should be false\"\n            ],\n            \"creationTimestamp\": null\n        \x7d\n    ]\n\x7d\n"
          = layout (documentLines r) ++ "\n" ∧
        ∃ body,
          "\x7b\n    \"results\": [\n        \x7b\n            \"name\": \"install-modes-check\",\n            \"state\": \"fail\",\n            \"errors\": [\n                \"installMode type MultiNamespace should be false\"\n            ],\n            \"creationTimestamp\": null\n        \x7d\n    ]\n\x7d\n"
            = body ++ "\x7d\n" :=
  ⟨by decide,
    stdout_is_indented_json_document sampleLoader ["scorecard-test", "install-modes-check"]
      "\x7b\n    \"results\": [\n        \x7b\n            \"name\": \"install-modes-check\",\n            \"state\": \"fail\",\n            \"errors\": [\n                \"installMode type MultiNamespace should be false\"\n            ],\n            \"creationTimestamp\": null\n        \x7d\n    ]\n\x7d\n"
      (by decide)⟩

end Scorecard
